import Mathlib

/-!
Verification development for the fantasy-draft-simulator draft core.

Shallow embedding of:
* `src/lib/types.ts` — positions, rosters, snake draft order, slot assignment;
* `src/lib/board-analysis.ts` — position runs, value drops, scarcity,
  board summary, persona-shift detection;
* the shared pick-recording module (`recordPick`): optimistic re-validation
  against the authoritative key-value store and the atomic commit.

Numbers are modelled as `Nat`/`Int` (the TypeScript code only ever performs
integer arithmetic on the modelled paths); the key-value store is modelled as
an explicit record of the namespaces/keys `recordPick` touches, and the
`Date.now()` timestamp is an explicit `now` parameter.
-/

/-- Position of a player: the closed category set of `types.ts`. -/
inductive Position where
  | QB | RB | WR | TE
deriving DecidableEq, Repr

/-- Roster slots: one dedicated slot per position plus the SUPERFLEX slot. -/
inductive RosterSlot where
  | QB | RB | WR | TE | SUPERFLEX
deriving DecidableEq, Repr

/-- Display string of a position, as interpolated into TS template strings. -/
def posToString : Position → String
  | Position.QB => "QB"
  | Position.RB => "RB"
  | Position.WR => "WR"
  | Position.TE => "TE"

/-- Player record from `types.ts` (`PlayerSchema`). -/
structure Player where
  playerId : String
  name : String
  position : Position
  team : String
  rank : Int
  tier : Int
  age : Int
  byeWeek : Int
deriving DecidableEq, Repr

/-- Committed draft pick record from `types.ts` (`PickSchema`). -/
structure Pick where
  pickNumber : Nat
  round : Nat
  teamIndex : Nat
  playerId : String
  playerName : String
  position : Position
  reasoning : String
  confidence : Rat
deriving DecidableEq, Repr

/-- Category taxonomy of a detected strategy shift (`ShiftCategory`). -/
inductive ShiftCategory where
  | strategyBreak | valueDeviation | trendFollow | trendFade | positionalPivot
deriving DecidableEq, Repr

/-- Severity of a detected strategy shift (`ShiftSeverity`). -/
inductive ShiftSeverity where
  | minor | major
deriving DecidableEq, Repr

/-- Result of persona-shift evaluation (`PersonaShiftDetection`). -/
structure PersonaShiftDetection where
  trigger : String
  category : ShiftCategory
  severity : ShiftSeverity
deriving DecidableEq, Repr

/-- Persisted strategy-shift record (`StrategyShift`). -/
structure StrategyShift where
  pickNumber : Nat
  teamIndex : Nat
  persona : String
  trigger : String
  reasoning : String
  playerPicked : String
  position : Position
  category : ShiftCategory
  severity : ShiftSeverity
deriving DecidableEq, Repr

/-- Team roster from `types.ts` (`RosterSchema`): a dedicated optional slot per
position plus the SUPERFLEX slot. -/
structure Roster where
  teamIndex : Nat
  teamName : String
  qb : Option Player := none
  rb : Option Player := none
  wr : Option Player := none
  te : Option Player := none
  superflex : Option Player := none
deriving DecidableEq, Repr

/-- Turn-cursor record from `types.ts` (`CurrentPickSchema`). -/
structure CurrentPick where
  pickNumber : Nat
  round : Nat
  teamIndex : Nat
  isHuman : Bool
deriving DecidableEq, Repr

/-- Draft settings from `types.ts` (`DraftSettingsSchema`). -/
structure DraftSettings where
  numTeams : Nat
  numRounds : Nat
  humanTeamIndex : Nat
deriving DecidableEq, Repr

/-- Full board state stored in the KV store (`BoardStateSchema`). -/
structure BoardState where
  picks : List Pick
  currentPick : CurrentPick
  settings : DraftSettings
  draftComplete : Bool
deriving DecidableEq, Repr

/-- Scouting note written when a strategy shift is persisted (`ScoutingNote`). -/
structure ScoutingNote where
  id : String
  round : Nat
  pickNumber : Nat
  text : String
  tags : List String
  timestamp : Nat
  type : Option String := none
deriving DecidableEq, Repr

/-- Number of teams (`NUM_TEAMS` in `types.ts`). -/
def NUM_TEAMS : Nat := 8

/-- Number of rounds (`NUM_ROUNDS` in `types.ts`). -/
def NUM_ROUNDS : Nat := 5

/-- Total number of picks (`TOTAL_PICKS = NUM_TEAMS * NUM_ROUNDS`). -/
def TOTAL_PICKS : Nat := NUM_TEAMS * NUM_ROUNDS

/-- Maximum scouting notes kept per team (`MAX_NOTES_PER_TEAM`). -/
def MAX_NOTES_PER_TEAM : Nat := 10

/-- Maximum scouting note length (`MAX_NOTE_LENGTH`). -/
def MAX_NOTE_LENGTH : Nat := 300

/-- Display names of the eight teams (`TEAM_NAMES`). -/
def TEAM_NAMES : List String :=
  ["Team 1", "Team 2", "Team 3", "Team 4", "Team 5", "Team 6", "Team 7", "Team 8"]

/-- Indexing into `TEAM_NAMES` as a TS template string renders it: an
out-of-range index reads `undefined`, which interpolates as "undefined". -/
def teamNameAt (i : Nat) : String := (TEAM_NAMES.getD i "undefined")

/-- Snake draft order from `types.ts`: odd rounds ascend 0..7, even rounds
descend 7..0. Faithful to `getSnakeDraftPick` for every `pickNumber ≥ 1`
(the function is only ever called with positive pick numbers); returns
(round, teamIndex). -/
def getSnakeDraftPick (pickNumber : Nat) : Nat × Nat :=
  let round := (pickNumber + NUM_TEAMS - 1) / NUM_TEAMS
  let pickInRound := (pickNumber - 1) % NUM_TEAMS
  let isEvenRound := round % 2 == 0
  let teamIndex := if isEvenRound then NUM_TEAMS - 1 - pickInRound else pickInRound
  (round, teamIndex)

/-- Roster-eligibility check from `types.ts`: a position can be drafted iff its
dedicated slot is open or the SUPERFLEX slot is open (`canDraftPosition`). -/
def canDraftPosition (roster : Roster) (position : Position) : Bool :=
  let dedicated : Option Player :=
    match position with
    | Position.QB => roster.qb
    | Position.RB => roster.rb
    | Position.WR => roster.wr
    | Position.TE => roster.te
  if dedicated.isNone then true
  else if roster.superflex.isNone then true
  else false

/-- Slot assignment from `types.ts` (`assignRosterSlot`): dedicated slot if
open, else SUPERFLEX if open, else none. -/
def assignRosterSlot (roster : Roster) (position : Position) : Option RosterSlot :=
  let dedicated : Option Player :=
    match position with
    | Position.QB => roster.qb
    | Position.RB => roster.rb
    | Position.WR => roster.wr
    | Position.TE => roster.te
  if dedicated.isNone then
    some (match position with
      | Position.QB => RosterSlot.QB
      | Position.RB => RosterSlot.RB
      | Position.WR => RosterSlot.WR
      | Position.TE => RosterSlot.TE)
  else if roster.superflex.isNone then some RosterSlot.SUPERFLEX
  else none

/-- Modelled from the spec: the parametric snake-order turn mapping
`turnFor(pickNumber, N) -> (round, participantIndex)` of section 4.1, whose
8-participant instance is `getSnakeDraftPick` in `types.ts` (the repository
hardcodes `NUM_TEAMS = 8`; no parametric variant is present under `src/`).
`round = ceil(pickNumber/N)`; position-in-round = `(pickNumber-1) mod N`;
even rounds reverse the order. -/
def turnFor (pickNumber : Nat) (n : Nat) : Nat × Nat :=
  let round := (pickNumber + n - 1) / n
  let pos := (pickNumber - 1) % n
  if round % 2 == 0 then (round, n - 1 - pos) else (round, pos)

/-! ### Stable sorting

JavaScript `Array.prototype.sort` is a stable sort; the comparators used in
`board-analysis.ts` (`b.adpDiff - a.adpDiff`, `a.remaining - b.remaining`,
`b.count - a.count`) are consistent total preorders on integers, so the result
is the unique stable ordering. We model it with a stable insertion sort that
inserts each later element after all already-placed elements whose key does
not force it earlier. -/

/-- Insert `x` into a descending-sorted list, after every element whose key is
at least `key x` (stability for equal keys). -/
def insertDescBy (key : α → Int) (x : α) : List α → List α
  | [] => [x]
  | y :: ys => if key y < key x then x :: y :: ys else y :: insertDescBy key x ys

/-- Stable sort by `key`, largest first (models JS stable sort with comparator
`(a, b) => key b - key a`). -/
def sortDescBy (key : α → Int) (l : List α) : List α :=
  l.foldl (fun acc x => insertDescBy key x acc) []

/-- Insert `x` into an ascending-sorted list, after every element whose key is
at most `key x` (stability for equal keys). -/
def insertAscBy (key : α → Int) (x : α) : List α → List α
  | [] => [x]
  | y :: ys => if key x < key y then x :: y :: ys else y :: insertAscBy key x ys

/-- Stable sort by `key`, smallest first (models JS stable sort with comparator
`(a, b) => key a - key b`). -/
def sortAscBy (key : α → Int) (l : List α) : List α :=
  l.foldl (fun acc x => insertAscBy key x acc) []

/-! ### Board signal analyzer (`board-analysis.ts`) -/

/-- Position-run window size (`POSITION_RUN_WINDOW`). -/
def POSITION_RUN_WINDOW : Nat := 8

/-- Minimum picks of one position within the window to call a run
(`POSITION_RUN_MIN_COUNT`). -/
def POSITION_RUN_MIN_COUNT : Nat := 3

/-- Minimum rank drop flagged as a value drop (`VALUE_DROP_THRESHOLD`). -/
def VALUE_DROP_THRESHOLD : Int := 8

/-- Maximum remaining players for a scarcity alert (`SCARCITY_THRESHOLD`). -/
def SCARCITY_THRESHOLD : Nat := 5

/-- A detected position run. -/
structure PositionRun where
  position : Position
  count : Nat
  window : Nat
deriving DecidableEq, Repr

/-- A detected value drop. -/
structure ValueDrop where
  player : Player
  adpDiff : Int
deriving DecidableEq, Repr

/-- A detected scarcity alert. -/
structure ScarcityAlert where
  position : Position
  remaining : Nat
deriving DecidableEq, Repr

/-- Structured output of `analyzeBoardState`. -/
structure BoardAnalysis where
  positionRuns : List PositionRun
  valueDrops : List ValueDrop
  scarcity : List ScarcityAlert
  summary : String
deriving DecidableEq, Repr

/-- Distinct elements of a list in first-occurrence order: the key iteration
order of a JS `Map`/`Set` populated by insertion. -/
def firstOccurrences [DecidableEq α] (l : List α) : List α :=
  l.foldl (fun acc x => if x ∈ acc then acc else acc ++ [x]) []

/-- Position-run detector (`detectPositionRuns`): counts positions within the
last `windowSize` picks; any position appearing at least `minRunCount` times is
a run. Runs are reported in first-occurrence order of the window, matching JS
`Map` iteration order. -/
def detectPositionRuns (picks : List Pick) (windowSize : Nat := POSITION_RUN_WINDOW)
    (minRunCount : Nat := POSITION_RUN_MIN_COUNT) : List PositionRun :=
  if picks.isEmpty then []
  else
    let window := picks.drop (picks.length - windowSize)
    let positions := firstOccurrences (window.map (·.position))
    positions.filterMap (fun pos =>
      let count := window.countP (fun p => p.position == pos)
      if minRunCount ≤ count then some ⟨pos, count, window.length⟩ else none)

/-- Value-drop detector (`detectValueDrops`): every remaining player with
`pickNumber - rank ≥ threshold` is flagged, sorted with the biggest drop
first. -/
def detectValueDrops (availablePlayers : List Player) (pickNumber : Nat)
    (threshold : Int := VALUE_DROP_THRESHOLD) : List ValueDrop :=
  let drops := availablePlayers.filterMap (fun player =>
    let adpDiff : Int := (pickNumber : Int) - player.rank
    if threshold ≤ adpDiff then some ⟨player, adpDiff⟩ else none)
  sortDescBy (·.adpDiff) drops

/-- Scarcity detector (`detectScarcity`): positions with at most
`SCARCITY_THRESHOLD` remaining players, most scarce first. Counting iterates
the pool in order, so alerts start in first-occurrence order before the stable
ascending sort. -/
def detectScarcity (availablePlayers : List Player) : List ScarcityAlert :=
  let positions := firstOccurrences (availablePlayers.map (·.position))
  let scarce := positions.filterMap (fun pos =>
    let remaining := availablePlayers.countP (fun p => p.position == pos)
    if remaining ≤ SCARCITY_THRESHOLD then some ⟨pos, remaining⟩ else none)
  sortAscBy (fun s => (s.remaining : Int)) scarce

/-- Summary line for a list of position runs. -/
def positionRunText (runs : List PositionRun) : String :=
  let runDescriptions := String.intercalate ", " (runs.map (fun r =>
    posToString r.position ++ " (" ++ toString r.count ++ " of last "
      ++ toString r.window ++ " picks)"))
  "POSITION RUN: Teams are rushing to draft " ++ runDescriptions
    ++ ". Consider whether to join the run or exploit the value elsewhere."

/-- Summary line for the top three value drops. -/
def valueDropText (drops : List ValueDrop) : String :=
  let topDrops := drops.take 3
  let dropDescriptions := String.intercalate "; " (topDrops.map (fun d =>
    d.player.name ++ " (" ++ posToString d.player.position ++ ", Rank "
      ++ toString d.player.rank ++ ", fallen " ++ toString d.adpDiff ++ " spots)"))
  "VALUE DROPS: " ++ dropDescriptions
    ++ ". These players have fallen well past their expected draft position."

/-- Summary line for a list of scarcity alerts. -/
def scarcityText (scarce : List ScarcityAlert) : String :=
  let scarcityDescriptions := String.intercalate ", " (scarce.map (fun s =>
    posToString s.position ++ " (" ++ toString s.remaining ++ " left)"))
  "SCARCITY ALERT: " ++ scarcityDescriptions ++ ". These positions are drying up fast."

/-- Fixed sentinel summary used when no detector fires. -/
def noSignalSummary : String :=
  "Board Analysis: No significant trends detected. Draft as planned."

/-- Human-readable summary built by concatenating the non-empty signal groups
in run, value-drop, scarcity order; the fixed sentinel when all are empty. -/
def boardSummaryText (runs : List PositionRun) (drops : List ValueDrop)
    (scarce : List ScarcityAlert) : String :=
  let parts : List String :=
    (if runs.isEmpty then [] else [positionRunText runs])
      ++ (if drops.isEmpty then [] else [valueDropText drops])
      ++ (if scarce.isEmpty then [] else [scarcityText scarce])
  if parts.isEmpty then noSignalSummary
  else "Board Analysis:\n" ++ String.intercalate "\n" parts

/-- Board signal analyzer (`analyzeBoardState`): runs the three detectors and
assembles the structured snapshot plus the deterministic summary string. -/
def analyzeBoardState (picks : List Pick) (availablePlayers : List Player)
    (pickNumber : Nat) : BoardAnalysis :=
  let positionRuns := detectPositionRuns picks
  let valueDrops := detectValueDrops availablePlayers pickNumber
  let scarcity := detectScarcity availablePlayers
  { positionRuns, valueDrops, scarcity,
    summary := boardSummaryText positionRuns valueDrops scarcity }

/-! ### Behavioral deviation detector (`board-analysis.ts`, persona shifts) -/

/-- Edge threshold for the one-pick value-pivot downgrade
(`STRONG_VALUE_PIVOT_EDGE`). -/
def STRONG_VALUE_PIVOT_EDGE : Int := 8

/-- Balanced-persona minor reach threshold. -/
def BALANCED_MINOR_REACH_THRESHOLD : Int := 10

/-- Balanced-persona major reach threshold. -/
def BALANCED_MAJOR_REACH_THRESHOLD : Int := 14

/-- Balanced-persona minor passed-drop threshold. -/
def BALANCED_MINOR_DROP_THRESHOLD : Int := 10

/-- Balanced-persona major passed-drop threshold. -/
def BALANCED_MAJOR_DROP_THRESHOLD : Int := 14

/-- Balanced-persona minor drop-gap threshold. -/
def BALANCED_MINOR_DROP_GAP : Int := 5

/-- Balanced-persona major drop-gap threshold. -/
def BALANCED_MAJOR_DROP_GAP : Int := 8

/-- Risk-averse minor reach threshold. -/
def RISK_AVERSE_MINOR_REACH_THRESHOLD : Int := 8

/-- Risk-averse major reach threshold. -/
def RISK_AVERSE_MAJOR_REACH_THRESHOLD : Int := 12

/-- Value-hunter minor negative-value threshold. -/
def VALUE_HUNTER_MINOR_NEGATIVE_VALUE : Int := -4

/-- Value-hunter major negative-value threshold. -/
def VALUE_HUNTER_MAJOR_NEGATIVE_VALUE : Int := -8

/-- Value-hunter minor passed-drop threshold. -/
def VALUE_HUNTER_MINOR_DROP_THRESHOLD : Int := 8

/-- Value-hunter major passed-drop threshold. -/
def VALUE_HUNTER_MAJOR_DROP_THRESHOLD : Int := 10

/-- Value-hunter minor drop-gap threshold. -/
def VALUE_HUNTER_MINOR_DROP_GAP : Int := 3

/-- Value-hunter major drop-gap threshold. -/
def VALUE_HUNTER_MAJOR_DROP_GAP : Int := 5

/-- Roster-restricted evaluation context (`ShiftEvaluationContext`): the JS
`Set` of eligible positions is modelled as a duplicate-free list in insertion
order. -/
structure ShiftEvaluationContext where
  eligiblePlayers : List Player
  eligiblePositions : List Position
  forcedPosition : Option Position
deriving DecidableEq, Repr

/-- Context builder (`buildShiftEvaluationContext`): restricts the pool to
players the roster can legally accept and detects a forced position. -/
def buildShiftEvaluationContext (roster : Roster) (availablePlayers : List Player) :
    ShiftEvaluationContext :=
  let eligiblePlayers := availablePlayers.filter (fun player =>
    canDraftPosition roster player.position)
  let eligiblePositions := firstOccurrences (eligiblePlayers.map (·.position))
  let forcedPosition :=
    if eligiblePositions.length == 1 then eligiblePositions.head? else none
  { eligiblePlayers, eligiblePositions, forcedPosition }

/-- Value of a player at a pick number (`getPlayerValue`):
`pickNumber - rank`. -/
def getPlayerValue (pickNumber : Nat) (player : Player) : Int :=
  (pickNumber : Int) - player.rank

/-- Best-value candidate among a list (`getBestValueCandidate`): the earliest
player of strictly greatest value (the JS loop starts from negative infinity
and replaces only on a strict improvement). -/
def getBestValueCandidate (pickNumber : Nat) (players : List Player) : Option Player :=
  players.foldl (fun best p =>
    match best with
    | none => some p
    | some b =>
      if getPlayerValue pickNumber b < getPlayerValue pickNumber p then some p else best)
    none

/-- First value drop whose position is eligible (`getTopEligibleValueDrop`). -/
def getTopEligibleValueDrop (boardAnalysis : BoardAnalysis)
    (eligiblePositions : List Position) : Option ValueDrop :=
  boardAnalysis.valueDrops.find? (fun drop =>
    eligiblePositions.any (fun q => q == drop.player.position))

/-- Core strategy-break classifier (`classifyCoreStrategyBreak`): a strong
value edge over the best in-strategy candidate downgrades the break to a minor
value pivot; otherwise the break is major. -/
def classifyCoreStrategyBreak (personaLabel : String) (pick : Pick)
    (pickedValue : Option Int) (preferredCandidates : List Player)
    (preferredLabel : String) (majorCategory : ShiftCategory) :
    Option PersonaShiftDetection :=
  match getBestValueCandidate pick.pickNumber preferredCandidates with
  | none => none
  | some bestPreferred =>
    let bestPreferredValue := getPlayerValue pick.pickNumber bestPreferred
    let pivot : Option PersonaShiftDetection :=
      match pickedValue with
      | some pv =>
        let valueEdge := pv - bestPreferredValue
        if STRONG_VALUE_PIVOT_EDGE ≤ valueEdge then
          some { trigger :=
                   personaLabel ++ " persona made a one-pick value pivot: drafted "
                     ++ pick.playerName ++ " (" ++ posToString pick.position
                     ++ ") over in-strategy " ++ preferredLabel ++ " option "
                     ++ bestPreferred.name ++ " with a +" ++ toString valueEdge
                     ++ " value edge.",
                 category := ShiftCategory.valueDeviation,
                 severity := ShiftSeverity.minor }
        else none
      | none => none
    match pivot with
    | some d => some d
    | none =>
      some { trigger :=
               personaLabel ++ " persona broke its core strategy by drafting "
                 ++ pick.playerName ++ " (" ++ posToString pick.position
                 ++ ") while viable " ++ preferredLabel ++ " option "
                 ++ bestPreferred.name ++ " was available.",
             category := majorCategory,
             severity := ShiftSeverity.major }

/-- Constructor shorthand for a `PersonaShiftDetection` literal. -/
def mkShift (trigger : String) (category : ShiftCategory)
    (severity : ShiftSeverity) : PersonaShiftDetection :=
  { trigger, category, severity }

/-- Persona-shift detector (`detectPersonaShift`): decides whether a committed
pick is inconsistent with the declared persona. When no `shiftContext` is
supplied, eligible players default to the entire `availablePlayers` list and
the forced position is derived from it; a forced position matching the pick
suppresses every rule. The JS `run.count / run.window >= 0.5` float comparison
is exact for window sizes up to 8 and is modelled as `2 * count ≥ window`. -/
def detectPersonaShift (persona : String) (pick : Pick)
    (boardAnalysis : BoardAnalysis) (availablePlayers : List Player)
    (shiftContext : Option ShiftEvaluationContext := none) :
    Option PersonaShiftDetection :=
  let position := pick.position
  let round := pick.round
  let pickedPlayer := availablePlayers.find? (fun p => p.playerId == pick.playerId)
  let pickedValue : Option Int := pickedPlayer.map (fun p => (pick.pickNumber : Int) - p.rank)
  let pickedReach : Option Int := pickedPlayer.map (fun p => p.rank - (pick.pickNumber : Int))
  let eligiblePlayers := match shiftContext with
    | some c => c.eligiblePlayers
    | none => availablePlayers
  let eligiblePositions := match shiftContext with
    | some c => c.eligiblePositions
    | none => firstOccurrences (eligiblePlayers.map (·.position))
  let forcedPosition : Option Position :=
    match shiftContext.bind (fun c => c.forcedPosition) with
    | some f => some f
    | none => if eligiblePositions.length == 1 then eligiblePositions.head? else none
  if (match forcedPosition with | some f => f == position | none => false) then none
  else
    let eligibleRuns := boardAnalysis.positionRuns.filter (fun run =>
      eligiblePositions.any (fun q => q == run.position))
    let eligibleScarcity := boardAnalysis.scarcity.filter (fun sc =>
      eligiblePositions.any (fun q => q == sc.position))
    match persona with
    | "drafter-balanced" =>
      let dropCheck : Option PersonaShiftDetection :=
        match getTopEligibleValueDrop boardAnalysis eligiblePositions, pickedValue with
        | some topDrop, some pv =>
          if topDrop.player.playerId ≠ pick.playerId then
            let dropGap := topDrop.adpDiff - pv
            if BALANCED_MAJOR_DROP_THRESHOLD ≤ topDrop.adpDiff
                ∧ BALANCED_MAJOR_DROP_GAP ≤ dropGap then
              some (mkShift
                ("Balanced persona passed on a major eligible value drop ("
                  ++ topDrop.player.name ++ ", +" ++ toString topDrop.adpDiff
                  ++ ") to draft " ++ pick.playerName ++ " with clearly lower value.")
                ShiftCategory.valueDeviation ShiftSeverity.major)
            else if BALANCED_MINOR_DROP_THRESHOLD ≤ topDrop.adpDiff
                ∧ BALANCED_MINOR_DROP_GAP ≤ dropGap then
              some (mkShift
                ("Balanced persona bypassed an eligible value pocket ("
                  ++ topDrop.player.name ++ ", +" ++ toString topDrop.adpDiff
                  ++ ") for " ++ pick.playerName ++ ", signaling a light tactical pivot.")
                ShiftCategory.valueDeviation ShiftSeverity.minor)
            else none
          else none
        | _, _ => none
      match pickedReach with
      | some reach =>
        if BALANCED_MAJOR_REACH_THRESHOLD ≤ reach then
          some (mkShift
            ("Balanced persona made an aggressive reach for " ++ pick.playerName
              ++ " (" ++ toString reach
              ++ " spots ahead of rank), deviating from BPA principles.")
            ShiftCategory.valueDeviation ShiftSeverity.major)
        else if BALANCED_MINOR_REACH_THRESHOLD ≤ reach then
          some (mkShift
            ("Balanced persona slightly reached for " ++ pick.playerName
              ++ " (" ++ toString reach
              ++ " spots ahead of rank), nudging away from BPA discipline.")
            ShiftCategory.valueDeviation ShiftSeverity.minor)
        else dropCheck
      | none => dropCheck
    | "drafter-bold" =>
      match pickedPlayer with
      | some pp =>
        if round ≤ 3 ∧ 29 ≤ pp.age ∧ pickedValue.getD 0 < 8 then
          if eligiblePlayers.any (fun p => p.age < 29) then
            let isMajor := 31 ≤ pp.age ∧ pickedValue.getD 0 < 4
            some (mkShift
              ("Bold persona drafted older, safer profile " ++ pick.playerName
                ++ " (age " ++ toString pp.age ++ ") without a major value discount.")
              ShiftCategory.strategyBreak
              (if isMajor then ShiftSeverity.major else ShiftSeverity.minor))
          else none
        else none
      | none => none
    | "drafter-stack-builder" =>
      if position ≠ Position.QB ∧ round ≤ 2 then
        let eliteQBs := eligiblePlayers.filter (fun p =>
          p.position == Position.QB && p.rank ≤ 18)
        classifyCoreStrategyBreak "Stack-builder" pick pickedValue eliteQBs
          "elite QB" ShiftCategory.positionalPivot
      else none
    | "drafter-zero-rb" =>
      if position = Position.RB ∧ round ≤ 3 then
        let nonRBAlternatives := eligiblePlayers.filter (fun p =>
          p.position != Position.RB)
        classifyCoreStrategyBreak "Zero-RB" pick pickedValue nonRBAlternatives
          "non-RB" ShiftCategory.strategyBreak
      else none
    | "drafter-qb-first" =>
      if position ≠ Position.QB ∧ round ≤ 2 then
        let qbsAvailable := eligiblePlayers.filter (fun p => p.position == Position.QB)
        classifyCoreStrategyBreak "QB-first" pick pickedValue qbsAvailable
          "QB" ShiftCategory.strategyBreak
      else none
    | "drafter-stud-rb" =>
      if position ≠ Position.RB ∧ round = 1 then
        let rbsAvailable := eligiblePlayers.filter (fun p => p.position == Position.RB)
        classifyCoreStrategyBreak "Stud-RB" pick pickedValue rbsAvailable
          "RB" ShiftCategory.strategyBreak
      else none
    | "drafter-te-premium" =>
      if position ≠ Position.TE ∧ round ≤ 2 then
        let eliteTEs := eligiblePlayers.filter (fun p =>
          p.position == Position.TE && p.tier ≤ 2)
        classifyCoreStrategyBreak "TE-premium" pick pickedValue eliteTEs
          "elite TE" ShiftCategory.strategyBreak
      else none
    | "drafter-contrarian" =>
      let activeRuns := eligibleRuns.filter (fun r =>
        4 ≤ r.count ∨ (6 ≤ r.window ∧ r.window ≤ 2 * r.count))
      match activeRuns.find? (fun r => r.position == position) with
      | some joinedRun =>
        if eligiblePlayers.any (fun p => p.position != position) then
          some (mkShift
            ("Contrarian joined a " ++ posToString position ++ " run ("
              ++ toString joinedRun.count ++ " of last " ++ toString joinedRun.window
              ++ " picks) instead of going against the grain.")
            ShiftCategory.trendFollow
            (if 5 ≤ joinedRun.count then ShiftSeverity.major else ShiftSeverity.minor))
        else none
      | none => none
    | "drafter-youth-movement" =>
      match pickedPlayer with
      | some pp =>
        if eligiblePlayers.any (fun p => p.age < 28) then
          if 30 ≤ pp.age then
            some (mkShift
              ("Youth-movement persona drafted " ++ pick.playerName ++ " (age "
                ++ toString pp.age ++ "), breaking their preference for young players.")
              ShiftCategory.strategyBreak ShiftSeverity.major)
          else if 28 ≤ pp.age then
            some (mkShift
              ("Youth-movement persona drafted " ++ pick.playerName ++ " (age "
                ++ toString pp.age ++ "), a mild departure from its youth-first bias.")
              ShiftCategory.strategyBreak ShiftSeverity.minor)
          else none
        else none
      | none => none
    | "drafter-risk-averse" =>
      match pickedPlayer with
      | some pp =>
        let reach := pp.rank - (pick.pickNumber : Int)
        if RISK_AVERSE_MAJOR_REACH_THRESHOLD < reach then
          some (mkShift
            ("Risk-averse persona reached for " ++ pick.playerName ++ " (Rank "
              ++ toString pp.rank ++ " at pick " ++ toString pick.pickNumber
              ++ ", a " ++ toString reach ++ "-spot reach).")
            ShiftCategory.valueDeviation ShiftSeverity.major)
        else if RISK_AVERSE_MINOR_REACH_THRESHOLD < reach then
          some (mkShift
            ("Risk-averse persona made a moderate reach for " ++ pick.playerName
              ++ " (" ++ toString reach
              ++ " spots ahead of rank), slightly increasing volatility.")
            ShiftCategory.valueDeviation ShiftSeverity.minor)
        else none
      | none => none
    | "drafter-value-hunter" =>
      match pickedPlayer with
      | some pp =>
        let value := (pick.pickNumber : Int) - pp.rank
        if value < VALUE_HUNTER_MAJOR_NEGATIVE_VALUE then
          some (mkShift
            ("Value-hunter reached for " ++ pick.playerName ++ " (Rank "
              ++ toString pp.rank ++ " at pick " ++ toString pick.pickNumber
              ++ ", negative value).")
            ShiftCategory.valueDeviation ShiftSeverity.major)
        else if value < VALUE_HUNTER_MINOR_NEGATIVE_VALUE then
          some (mkShift
            ("Value-hunter took " ++ pick.playerName ++ " at slight negative value (Rank "
              ++ toString pp.rank ++ " at pick " ++ toString pick.pickNumber
              ++ "), a softer deviation from value-first behavior.")
            ShiftCategory.valueDeviation ShiftSeverity.minor)
        else
          match getTopEligibleValueDrop boardAnalysis eligiblePositions with
          | some topDrop =>
            if topDrop.player.playerId ≠ pick.playerId then
              let dropGap := topDrop.adpDiff - value
              if VALUE_HUNTER_MAJOR_DROP_THRESHOLD ≤ topDrop.adpDiff
                  ∧ VALUE_HUNTER_MAJOR_DROP_GAP ≤ dropGap then
                some (mkShift
                  ("Value-hunter passed on top eligible value drop "
                    ++ topDrop.player.name ++ " (+" ++ toString topDrop.adpDiff
                    ++ ") for a lower-value option.")
                  ShiftCategory.valueDeviation ShiftSeverity.major)
              else if VALUE_HUNTER_MINOR_DROP_THRESHOLD ≤ topDrop.adpDiff
                  ∧ VALUE_HUNTER_MINOR_DROP_GAP ≤ dropGap then
                some (mkShift
                  ("Value-hunter bypassed eligible drop " ++ topDrop.player.name
                    ++ " (+" ++ toString topDrop.adpDiff
                    ++ ") and made a minor tactical pivot.")
                  ShiftCategory.valueDeviation ShiftSeverity.minor)
              else none
            else none
          | none => none
      | none => none
    | "drafter-reactive" =>
      let sortedRuns := sortDescBy (fun r => (r.count : Int)) eligibleRuns
      let dominantRun := sortedRuns.head?
      let runnerUpRun := (sortedRuns.drop 1).head?
      let hasDominantRun : Bool :=
        match dominantRun with
        | some d =>
          decide (4 ≤ d.count)
            && (match runnerUpRun with
                | some ru => decide ((1 : Int) ≤ (d.count : Int) - (ru.count : Int))
                | none => true)
        | none => false
      let topDrop := getTopEligibleValueDrop boardAnalysis eligiblePositions
      let hasMajorDrop : Bool :=
        match topDrop with | some d => decide (10 ≤ d.adpDiff) | none => false
      let hasMinorDrop : Bool :=
        match topDrop with | some d => decide (8 ≤ d.adpDiff) | none => false
      let urgentScarcity := eligibleScarcity.filter (fun sc => sc.remaining ≤ 3)
      let scarcityCheck : Option PersonaShiftDetection :=
        if ¬hasDominantRun ∧ ¬hasMinorDrop ∧ ¬urgentScarcity.isEmpty then
          let scarcePositions := urgentScarcity.map (·.position)
          if ¬(scarcePositions.any (fun q => q == position)) then
            some (mkShift
              ("Reactive persona ignored scarcity alerts at "
                ++ String.intercalate ", " (scarcePositions.map posToString)
                ++ " and drafted " ++ pick.playerName ++ " ("
                ++ posToString position ++ ").")
              ShiftCategory.trendFade
              (if 1 < urgentScarcity.length then ShiftSeverity.major
                else ShiftSeverity.minor))
          else none
        else none
      let dropCheck : Option PersonaShiftDetection :=
        match topDrop with
        | some td =>
          if ¬hasDominantRun ∧ (hasMajorDrop ∨ hasMinorDrop) then
            if td.player.playerId ≠ pick.playerId then
              match pickedValue with
              | none =>
                some (mkShift
                  ("Reactive persona passed on " ++ td.player.name ++ " ("
                    ++ posToString td.player.position ++ ", fallen "
                    ++ toString td.adpDiff ++ " spots) to draft "
                    ++ pick.playerName ++ " instead.")
                  ShiftCategory.valueDeviation
                  (if hasMajorDrop then ShiftSeverity.major else ShiftSeverity.minor))
              | some pv =>
                let dropGap := td.adpDiff - pv
                if hasMajorDrop ∧ 6 ≤ dropGap then
                  some (mkShift
                    ("Reactive persona passed on " ++ td.player.name ++ " ("
                      ++ posToString td.player.position ++ ", fallen "
                      ++ toString td.adpDiff ++ " spots) to draft "
                      ++ pick.playerName ++ " instead.")
                    ShiftCategory.valueDeviation ShiftSeverity.major)
                else if 3 ≤ dropGap then
                  some (mkShift
                    ("Reactive persona faded an eligible value signal ("
                      ++ td.player.name ++ ", +" ++ toString td.adpDiff ++ ") for "
                      ++ pick.playerName ++ ".")
                    ShiftCategory.valueDeviation ShiftSeverity.minor)
                else scarcityCheck
            else scarcityCheck
          else scarcityCheck
        | none => scarcityCheck
      match dominantRun with
      | some d =>
        if hasDominantRun ∧ d.position ≠ position then
          some (mkShift
            ("Reactive persona ignored a dominant " ++ posToString d.position
              ++ " run (" ++ toString d.count ++ " of last " ++ toString d.window
              ++ " picks) and drafted " ++ pick.playerName ++ " ("
              ++ posToString position ++ ").")
            ShiftCategory.trendFade ShiftSeverity.major)
        else dropCheck
      | none => dropCheck
    | _ => none

/-! ### Pick recorder (shared pick-recording module)

The KV store is modelled as an explicit record of the namespaces/keys the
recorder touches: `draft-state/board`, `draft-state/available-players`,
`team-rosters/team-i`, `agent-strategies/shift-N`,
`agent-strategies/strategy-shifts` and `team-scouting-notes/team-i`. The two
initial `kv.get`s of a commit attempt happen together (`Promise.all`) and the
final `kv.set`s are one batch, so a commit attempt is one read phase followed
by one write phase over this record. -/

/-- Explicit model of the KV namespaces/keys used by the pick recorder. -/
structure KVStore where
  board : Option BoardState
  availablePlayers : Option (List Player)
  rosters : Nat → Option Roster
  shiftByPick : Nat → Option StrategyShift
  strategyShifts : Option (List StrategyShift)
  notes : Nat → Option (List ScoutingNote)

/-- Input of `recordPick` (`RecordPickInput`). -/
structure RecordPickInput where
  boardState : BoardState
  roster : Roster
  availablePlayers : List Player
  pickedPlayer : Player
  reasoning : String
  confidence : Rat
  personaName : Option String := none
  boardAnalysis : Option BoardAnalysis := none

/-- Result of `recordPick` (`RecordPickResult`). -/
structure RecordPickResult where
  success : Bool
  message : String
  pick : Option Pick := none
  boardState : BoardState
  roster : Roster
  availablePlayers : List Player
  draftComplete : Bool
  strategyShift : Option StrategyShift := none
deriving DecidableEq, Repr

/-- Error message of the roster-slot rejections. -/
def msgNoSlot (name : String) (position : Position) : String :=
  "Cannot draft " ++ name ++ " (" ++ posToString position
    ++ ") - no available roster slot."

/-- Error message when no board state exists in the store. -/
def msgNoDraft : String := "No draft in progress. Board state was not found."

/-- Error message when the fresh board is already complete. -/
def msgComplete : String := "Draft is already complete."

/-- Conflict error message for a turn-cursor mismatch. -/
def msgConflict (expected latest : CurrentPick) : String :=
  "Pick conflict: expected pick #" ++ toString expected.pickNumber ++ " ("
    ++ teamNameAt expected.teamIndex ++ "), but board is at pick #"
    ++ toString latest.pickNumber ++ " (" ++ teamNameAt latest.teamIndex
    ++ "). Refresh and retry."

/-- Error message when the available-player list is missing from the store. -/
def msgNoPlayers : String :=
  "No available players found in draft state. Refresh and retry."

/-- Error message when the picked player left the fresh pool. -/
def msgNotAvailable (name pid : String) : String :=
  "Player " ++ name ++ " (" ++ pid ++ ") is no longer available. Refresh and retry."

/-- Success message of a committed pick. -/
def msgSelects (teamIndex : Nat) (name : String) (position : Position)
    (pickNumber : Nat) : String :=
  teamNameAt teamIndex ++ " selects " ++ name ++ " (" ++ posToString position
    ++ ") with pick #" ++ toString pickNumber ++ "."

/-- Turn-cursor advance (`advanceCurrentPick` in the pick-recording module and
the commissioner agent): moves to the next pick number and derives round and
team from the snake order. -/
def advanceCurrentPick (currentPickNumber : Nat) (settings : DraftSettings) :
    CurrentPick :=
  let nextPickNumber := currentPickNumber + 1
  let rt := getSnakeDraftPick nextPickNumber
  { pickNumber := nextPickNumber, round := rt.1, teamIndex := rt.2,
    isHuman := rt.2 == settings.humanTeamIndex }

/-- Fill the roster slot returned by `assignRosterSlot` with a player; a
SUPERFLEX slot writes the superflex field, otherwise the dedicated field. -/
def setRosterSlot (roster : Roster) (slot : RosterSlot) (player : Player) : Roster :=
  match slot with
  | RosterSlot.QB => { roster with qb := some player }
  | RosterSlot.RB => { roster with rb := some player }
  | RosterSlot.WR => { roster with wr := some player }
  | RosterSlot.TE => { roster with te := some player }
  | RosterSlot.SUPERFLEX => { roster with superflex := some player }

/-- Scouting note written alongside a persisted strategy shift; `now` stands
for `Date.now()`. -/
def shiftNote (shift : StrategyShift) (cp : CurrentPick) (now : Nat) : ScoutingNote :=
  { id := "shift-note-" ++ toString cp.pickNumber ++ "-" ++ toString now,
    round := cp.round,
    pickNumber := cp.pickNumber,
    text := ("Pick #" ++ toString cp.pickNumber ++ ": "
      ++ (match shift.category with
          | ShiftCategory.strategyBreak => "strategy-break"
          | ShiftCategory.valueDeviation => "value-deviation"
          | ShiftCategory.trendFollow => "trend-follow"
          | ShiftCategory.trendFade => "trend-fade"
          | ShiftCategory.positionalPivot => "positional-pivot")
      ++ " (" ++ (match shift.severity with
          | ShiftSeverity.minor => "minor"
          | ShiftSeverity.major => "major")
      ++ ") - " ++ shift.trigger).take MAX_NOTE_LENGTH,
    tags := ["shift",
      "category:" ++ (match shift.category with
          | ShiftCategory.strategyBreak => "strategy-break"
          | ShiftCategory.valueDeviation => "value-deviation"
          | ShiftCategory.trendFollow => "trend-follow"
          | ShiftCategory.trendFade => "trend-fade"
          | ShiftCategory.positionalPivot => "positional-pivot"),
      "severity:" ++ (match shift.severity with
          | ShiftSeverity.minor => "minor"
          | ShiftSeverity.major => "major")],
    timestamp := now,
    type := some "shift" }

/-- Note-list trim applied when a shift note is appended: keep at most the
last `MAX_NOTES_PER_TEAM` notes. -/
def trimNotes (nextNotes : List ScoutingNote) : List ScoutingNote :=
  if MAX_NOTES_PER_TEAM < nextNotes.length then
    nextNotes.drop (nextNotes.length - MAX_NOTES_PER_TEAM)
  else nextNotes

/-- Persistence of a detected strategy shift: writes the per-pick key, the
cumulative shift list and the trimmed team scouting note; a `none` detection
leaves the store untouched. -/
def applyShiftWrites (kv : KVStore) (detectedShift : Option StrategyShift)
    (currentPick : CurrentPick) (now : Nat) : KVStore :=
  match detectedShift with
  | some shift =>
    let allShifts :=
      match kv.strategyShifts with
      | some existing => existing ++ [shift]
      | none => [shift]
    let note := shiftNote shift currentPick now
    let existingNotes := (kv.notes currentPick.teamIndex).getD []
    { kv with
      shiftByPick := fun n =>
        if n = currentPick.pickNumber then some shift else kv.shiftByPick n,
      strategyShifts := some allShifts,
      notes := fun i =>
        if i = currentPick.teamIndex then some (trimNotes (existingNotes ++ [note]))
        else kv.notes i }
  | none => kv

/-- Board produced by a successful commit: the pick is appended, and the
cursor either advances by one (through the snake order) or, on the last pick,
stays in place while the draft is marked complete. -/
def commitBoard (latestBoardState : BoardState) (pick : Pick) : BoardState :=
  let currentPick := latestBoardState.currentPick
  let isLastPick := TOTAL_PICKS ≤ currentPick.pickNumber
  { latestBoardState with
    picks := latestBoardState.picks ++ [pick],
    currentPick :=
      if isLastPick then currentPick
      else advanceCurrentPick currentPick.pickNumber latestBoardState.settings,
    draftComplete := if isLastPick then true else latestBoardState.draftComplete }

/-- Strategy-shift record built on the success path when a persona name and a
board analysis accompany the commit and `detectPersonaShift` fires; the pick
record already carries the fresh cursor's pick number and team index. -/
def detectShiftRecord (input : RecordPickInput) (pick : Pick)
    (latestAvailablePlayers : List Player) (latestPickedPlayer : Player) :
    Option StrategyShift :=
  match input.personaName, input.boardAnalysis with
  | some personaName, some boardAnalysis =>
    match detectPersonaShift personaName pick boardAnalysis latestAvailablePlayers with
    | some d =>
      some { pickNumber := pick.pickNumber,
             teamIndex := pick.teamIndex,
             persona := personaName,
             trigger := d.trigger,
             reasoning := input.reasoning,
             playerPicked := latestPickedPlayer.name,
             position := latestPickedPlayer.position,
             category := d.category,
             severity := d.severity }
    | none => none
  | _, _ => none

/-- Commit phase of `recordPick`, entered once every validation against the
fresh store state has passed: detects a persona shift (persisting it with a
companion scouting note when found), fills the roster slot, removes the player
from the pool, appends the pick, advances the cursor or marks the draft
complete, and writes roster, pool and board back to the store. -/
def commitPick (kv : KVStore) (input : RecordPickInput) (latestBoardState : BoardState)
    (latestAvailablePlayers : List Player) (latestPickedPlayer : Player) (now : Nat) :
    RecordPickResult × KVStore :=
  let currentPick := latestBoardState.currentPick
  let pick : Pick :=
    { pickNumber := currentPick.pickNumber,
      round := currentPick.round,
      teamIndex := currentPick.teamIndex,
      playerId := latestPickedPlayer.playerId,
      playerName := latestPickedPlayer.name,
      position := latestPickedPlayer.position,
      reasoning := input.reasoning,
      confidence := input.confidence }
  let detectedShift : Option StrategyShift :=
    detectShiftRecord input pick latestAvailablePlayers latestPickedPlayer
  let kvAfterShift : KVStore := applyShiftWrites kv detectedShift currentPick now
  let updatedRoster : Roster :=
    match assignRosterSlot input.roster latestPickedPlayer.position with
    | some slot => setRosterSlot input.roster slot latestPickedPlayer
    | none => input.roster
  let updatedAvailable := latestAvailablePlayers.filter (fun p =>
    p.playerId ≠ latestPickedPlayer.playerId)
  let updatedBoardState : BoardState := commitBoard latestBoardState pick
  let kvFinal : KVStore :=
    { kvAfterShift with
      rosters := fun i =>
        if i = currentPick.teamIndex then some updatedRoster else kvAfterShift.rosters i,
      availablePlayers := some updatedAvailable,
      board := some updatedBoardState }
  (⟨true,
    msgSelects currentPick.teamIndex latestPickedPlayer.name
      latestPickedPlayer.position currentPick.pickNumber,
    some pick, updatedBoardState, updatedRoster, updatedAvailable,
    updatedBoardState.draftComplete, detectedShift⟩,
   kvFinal)

/-- Pick recorder (`recordPick`): validates the proposed pick against the
caller's roster, re-reads board and pool fresh from the store, re-validates
(draft completeness, turn-cursor match, availability, roster fit against the
fresh player data) and commits. Every rejection leaves the store untouched. -/
def recordPick (kv : KVStore) (input : RecordPickInput) (now : Nat) :
    RecordPickResult × KVStore :=
  let expectedPick := input.boardState.currentPick
  if ¬canDraftPosition input.roster input.pickedPlayer.position then
    (⟨false, msgNoSlot input.pickedPlayer.name input.pickedPlayer.position, none,
      input.boardState, input.roster, input.availablePlayers,
      input.boardState.draftComplete, none⟩, kv)
  else
    match kv.board, kv.availablePlayers with
    | none, _ =>
      (⟨false, msgNoDraft, none, input.boardState, input.roster,
        input.availablePlayers, input.boardState.draftComplete, none⟩, kv)
    | some latestBoardState, latestPlayersOpt =>
      if latestBoardState.draftComplete then
        (⟨false, msgComplete, none, latestBoardState, input.roster,
          latestPlayersOpt.getD input.availablePlayers, true, none⟩, kv)
      else
        let latestCurrentPick := latestBoardState.currentPick
        if latestCurrentPick.pickNumber ≠ expectedPick.pickNumber
            ∨ latestCurrentPick.teamIndex ≠ expectedPick.teamIndex then
          (⟨false, msgConflict expectedPick latestCurrentPick, none, latestBoardState,
            input.roster, latestPlayersOpt.getD input.availablePlayers,
            latestBoardState.draftComplete, none⟩, kv)
        else
          match latestPlayersOpt with
          | none =>
            (⟨false, msgNoPlayers, none, latestBoardState, input.roster,
              input.availablePlayers, latestBoardState.draftComplete, none⟩, kv)
          | some latestAvailablePlayers =>
            match latestAvailablePlayers.find? (fun p =>
                p.playerId == input.pickedPlayer.playerId) with
            | none =>
              (⟨false,
                msgNotAvailable input.pickedPlayer.name input.pickedPlayer.playerId,
                none, latestBoardState, input.roster, latestAvailablePlayers,
                latestBoardState.draftComplete, none⟩, kv)
            | some latestPickedPlayer =>
              if ¬canDraftPosition input.roster latestPickedPlayer.position then
                (⟨false, msgNoSlot latestPickedPlayer.name latestPickedPlayer.position,
                  none, latestBoardState, input.roster, latestAvailablePlayers,
                  latestBoardState.draftComplete, none⟩, kv)
              else
                commitPick kv input latestBoardState latestAvailablePlayers
                  latestPickedPlayer now

/-- Initial board state of a fresh draft (`createInitialBoardState` in the
commissioner agent): empty pick list, cursor at pick 1 / round 1 / team 0, the
eight-team five-round settings, draft not complete. -/
def createInitialBoardState (humanTeamIndex : Nat) : BoardState :=
  { picks := [],
    currentPick :=
      { pickNumber := 1, round := 1, teamIndex := 0,
        isHuman := humanTeamIndex == 0 },
    settings :=
      { numTeams := NUM_TEAMS, numRounds := NUM_ROUNDS,
        humanTeamIndex := humanTeamIndex },
    draftComplete := false }

/-- Draft states reachable from a fresh draft by successful commits: the store
starts with the initial board of the `start` action, and every step is a
`recordPick` call whose result reports success. -/
inductive ReachableDraft : KVStore → Prop where
  | init (kv : KVStore) (humanTeamIndex : Nat)
      (hb : kv.board = some (createInitialBoardState humanTeamIndex)) :
      ReachableDraft kv
  | step (kv : KVStore) (input : RecordPickInput) (now : Nat)
      (hr : ReachableDraft kv)
      (hs : (recordPick kv input now).1.success = true) :
      ReachableDraft (recordPick kv input now).2

/-! ### Lemmas about the stable sorts -/

theorem insertDescBy_perm (key : α → Int) (x : α) (l : List α) :
    (insertDescBy key x l).Perm (x :: l) := by
  induction l with
  | nil => simp [insertDescBy]
  | cons y ys ih =>
    simp only [insertDescBy]
    split
    · exact List.Perm.refl _
    · exact (List.Perm.cons y ih).trans (List.Perm.swap x y ys)

theorem sortDescBy_foldl_perm (key : α → Int) (l acc : List α) :
    (List.foldl (fun acc x => insertDescBy key x acc) acc l).Perm (acc ++ l) := by
  induction l generalizing acc with
  | nil => simp
  | cons x xs ih =>
    have h1 := ih (insertDescBy key x acc)
    have h2 := (insertDescBy_perm key x acc).append_right xs
    have h3 : ((x :: acc) ++ xs).Perm (acc ++ x :: xs) := List.perm_middle.symm
    exact (h1.trans h2).trans h3

theorem sortDescBy_perm (key : α → Int) (l : List α) :
    (sortDescBy key l).Perm l := by
  simpa using sortDescBy_foldl_perm key l []

theorem mem_insertDescBy (key : α → Int) (x y : α) (l : List α) :
    y ∈ insertDescBy key x l ↔ y = x ∨ y ∈ l := by
  rw [(insertDescBy_perm key x l).mem_iff, List.mem_cons]

theorem insertDescBy_sorted (key : α → Int) (x : α) (l : List α)
    (h : l.Pairwise (fun a b => key b ≤ key a)) :
    (insertDescBy key x l).Pairwise (fun a b => key b ≤ key a) := by
  induction l with
  | nil => simp [insertDescBy]
  | cons y ys ih =>
    rcases List.pairwise_cons.mp h with ⟨hy, hys⟩
    simp only [insertDescBy]
    split
    · rename_i hlt
      refine List.pairwise_cons.mpr ⟨?_, h⟩
      intro z hz
      rcases List.mem_cons.mp hz with rfl | hz
      · exact le_of_lt hlt
      · exact (hy z hz).trans (le_of_lt hlt)
    · rename_i hge
      refine List.pairwise_cons.mpr ⟨?_, ih hys⟩
      intro z hz
      rcases (mem_insertDescBy key x z ys).mp hz with rfl | hz
      · exact le_of_not_lt hge
      · exact hy z hz

theorem sortDescBy_sorted (key : α → Int) (l : List α) :
    (sortDescBy key l).Pairwise (fun a b => key b ≤ key a) := by
  have main : ∀ (l acc : List α), acc.Pairwise (fun a b => key b ≤ key a) →
      (List.foldl (fun acc x => insertDescBy key x acc) acc l).Pairwise
        (fun a b => key b ≤ key a) := by
    intro l
    induction l with
    | nil => intro acc h; simpa using h
    | cons x xs ih =>
      intro acc h
      exact ih _ (insertDescBy_sorted key x acc h)
  simpa [sortDescBy] using main l [] (by simp)

/-! ### Value-drop detector lemmas and scenario fixtures -/

theorem filterMapDrops_map_player (players : List Player) (n : Nat) (t : Int) :
    ((players.filterMap (fun player =>
        let adpDiff : Int := (n : Int) - player.rank
        if t ≤ adpDiff then some (⟨player, adpDiff⟩ : ValueDrop) else none)).map
      (·.player))
      = players.filter (fun p => t ≤ (n : Int) - p.rank) := by
  induction players with
  | nil => rfl
  | cons p ps ih =>
    simp only [List.filterMap_cons, List.filter_cons]
    by_cases h : t ≤ (n : Int) - p.rank
    · simp [h, ih]
    · simp [h, ih]

/-- Fixture: the player of rank `i + 1` in the 150-player scenario pool. -/
def rankedPlayer (i : Nat) : Player :=
  { playerId := "p" ++ toString (i + 1), name := "Player " ++ toString (i + 1),
    position := Position.WR, team := "T", rank := (i : Int) + 1, tier := 1,
    age := 25, byeWeek := 5 }

/-- Fixture: a pool holding players ranked 1..150. -/
def pool150 : List Player := (List.range 150).map rankedPlayer

/-- C8: `detectValueDrops` flags exactly the remaining players whose drop
`pickNumber - rank` meets the threshold (default 8), records that drop, and
sorts the output with the biggest drop first; in the 150-player scenario at
pick 20 the flagged drops are 19..8 (ranks 1..12), the rank-5 player carries
drop 15, and it appears before the drop-9 player. -/
theorem detectValueDrops_spec :
    (∀ (players : List Player) (n : Nat) (t : Int),
      ((detectValueDrops players n t).map (·.player)).Perm
        (players.filter (fun p => t ≤ (n : Int) - p.rank))
      ∧ (detectValueDrops players n t).Pairwise (fun a b => b.adpDiff ≤ a.adpDiff)
      ∧ ∀ d ∈ detectValueDrops players n t,
          d.adpDiff = (n : Int) - d.player.rank ∧ t ≤ d.adpDiff)
    ∧ (detectValueDrops pool150 20 VALUE_DROP_THRESHOLD).map (fun d => d.adpDiff)
        = [19, 18, 17, 16, 15, 14, 13, 12, 11, 10, 9, 8]
    ∧ (detectValueDrops pool150 20 VALUE_DROP_THRESHOLD).map (fun d => d.player.rank)
        = [1, 2, 3, 4, 5, 6, 7, 8, 9, 10, 11, 12]
    ∧ (∃ d ∈ detectValueDrops pool150 20 VALUE_DROP_THRESHOLD,
        d.player.rank = 5 ∧ d.adpDiff = 15)
    ∧ ((detectValueDrops pool150 20 VALUE_DROP_THRESHOLD).map
          (fun d => d.adpDiff)).indexOf 15
        < ((detectValueDrops pool150 20 VALUE_DROP_THRESHOLD).map
          (fun d => d.adpDiff)).indexOf 9 := by
  refine ⟨?_, by decide, by decide, ?_, by decide⟩
  · intro players n t
    refine ⟨?_, ?_, ?_⟩
    · have hp := (sortDescBy_perm (fun d : ValueDrop => d.adpDiff)
        (players.filterMap (fun player =>
          let adpDiff : Int := (n : Int) - player.rank
          if t ≤ adpDiff then some (⟨player, adpDiff⟩ : ValueDrop) else none))).map
        (fun d : ValueDrop => d.player)
      rw [filterMapDrops_map_player players n t] at hp
      exact hp
    · exact sortDescBy_sorted _ _
    · intro d hd
      have hmem : d ∈ players.filterMap (fun player =>
          let adpDiff : Int := (n : Int) - player.rank
          if t ≤ adpDiff then some (⟨player, adpDiff⟩ : ValueDrop) else none) :=
        (sortDescBy_perm _ _).subset hd
      rcases List.mem_filterMap.mp hmem with ⟨a, _, hfa⟩
      by_cases h : t ≤ (n : Int) - a.rank
      · simp only [h, if_pos] at hfa
        cases hfa
        exact ⟨rfl, h⟩
      · simp [h] at hfa
  · exact ⟨⟨rankedPlayer 4, 15⟩, by decide, by decide, by decide⟩

/-- Witness for C8: the membership characterization evaluated at the concrete
rank-5 scenario player. -/
theorem detectValueDrops_spec_witness :
    ((⟨rankedPlayer 4, 15⟩ : ValueDrop) ∈ detectValueDrops pool150 20 VALUE_DROP_THRESHOLD)
    ∧ ((⟨rankedPlayer 4, 15⟩ : ValueDrop).adpDiff
          = (20 : Int) - (⟨rankedPlayer 4, 15⟩ : ValueDrop).player.rank
        ∧ VALUE_DROP_THRESHOLD ≤ (⟨rankedPlayer 4, 15⟩ : ValueDrop).adpDiff) :=
  ⟨by decide,
   (detectValueDrops_spec.1 pool150 20 VALUE_DROP_THRESHOLD).2.2 _ (by decide)⟩

/-! ### Board-summary string lemmas -/

theorem string_data_append (s t : String) : (s ++ t).data = s.data ++ t.data := by
  cases s
  cases t
  rfl

theorem boardSummaryHeader_ne (s : String) :
    ¬("Board Analysis:\n" ++ s = noSignalSummary) := by
  intro h
  have h1 : ("Board Analysis:\n" ++ s).data.take 16 = noSignalSummary.data.take 16 := by
    rw [h]
  rw [string_data_append] at h1
  have hlen : ("Board Analysis:\n").data.length = 16 := by decide
  rw [← hlen, List.take_left] at h1
  exact absurd h1 (by decide)

theorem boardSummaryText_eq_sentinel_iff (runs : List PositionRun)
    (drops : List ValueDrop) (scarce : List ScarcityAlert) :
    boardSummaryText runs drops scarce = noSignalSummary
      ↔ runs = [] ∧ drops = [] ∧ scarce = [] := by
  cases runs with
  | cons r rs => simp [boardSummaryText, boardSummaryHeader_ne]
  | nil =>
    cases drops with
    | cons d ds => simp [boardSummaryText, boardSummaryHeader_ne]
    | nil =>
      cases scarce with
      | cons s ss => simp [boardSummaryText, boardSummaryHeader_ne]
      | nil => simp [boardSummaryText]

/-- C9: the summary string of `analyzeBoardState` is the concatenation of the
non-empty signal groups in run, value-drop, scarcity order, and it equals the
fixed no-signal sentinel exactly when all three signal lists are empty. -/
theorem analyzeBoardState_summary_spec :
    ∀ (picks : List Pick) (availablePlayers : List Player) (pickNumber : Nat),
      (analyzeBoardState picks availablePlayers pickNumber).summary
        = boardSummaryText
            (analyzeBoardState picks availablePlayers pickNumber).positionRuns
            (analyzeBoardState picks availablePlayers pickNumber).valueDrops
            (analyzeBoardState picks availablePlayers pickNumber).scarcity
      ∧ ((analyzeBoardState picks availablePlayers pickNumber).summary = noSignalSummary
          ↔ (analyzeBoardState picks availablePlayers pickNumber).positionRuns = []
            ∧ (analyzeBoardState picks availablePlayers pickNumber).valueDrops = []
            ∧ (analyzeBoardState picks availablePlayers pickNumber).scarcity = []) := by
  intro picks avail n
  exact ⟨rfl, boardSummaryText_eq_sentinel_iff _ _ _⟩

/-! ### Snake draft order theorems -/

/-- C3: for every pick number 1..TOTAL_PICKS (40), `getSnakeDraftPick` returns
the ceiling-division round (characterized by `8*(round-1) < n ≤ 8*round`), the
ascending team index on odd rounds and the reflected index on even rounds; the
mapping is a bijection onto rounds 1..5 times team indexes 0..7 (no pair
repeats and every pair is hit); round 1 visits teams 0..7 in ascending order
and round 2 visits them in descending order. -/
theorem getSnakeDraftPick_spec :
    (∀ n ∈ Finset.Icc 1 TOTAL_PICKS,
      (NUM_TEAMS * ((getSnakeDraftPick n).1 - 1) < n
        ∧ n ≤ NUM_TEAMS * (getSnakeDraftPick n).1)
      ∧ 1 ≤ (getSnakeDraftPick n).1 ∧ (getSnakeDraftPick n).1 ≤ NUM_ROUNDS
      ∧ (getSnakeDraftPick n).2 < NUM_TEAMS
      ∧ ((getSnakeDraftPick n).1 % 2 = 1 →
          (getSnakeDraftPick n).2 = (n - 1) % NUM_TEAMS)
      ∧ ((getSnakeDraftPick n).1 % 2 = 0 →
          (getSnakeDraftPick n).2 = NUM_TEAMS - 1 - (n - 1) % NUM_TEAMS))
    ∧ ((List.range TOTAL_PICKS).map (fun k => getSnakeDraftPick (k + 1))).Nodup
    ∧ (∀ r ∈ Finset.Icc 1 NUM_ROUNDS, ∀ t ∈ Finset.range NUM_TEAMS,
        (r, t) ∈ (List.range TOTAL_PICKS).map (fun k => getSnakeDraftPick (k + 1)))
    ∧ (∀ t ∈ Finset.range NUM_TEAMS, getSnakeDraftPick (t + 1) = (1, t))
    ∧ (∀ t ∈ Finset.range NUM_TEAMS,
        getSnakeDraftPick (NUM_TEAMS + t + 1) = (2, NUM_TEAMS - 1 - t)) := by
  decide

/-- Witness for C3: the bounded statements instantiated at pick 13 and at the
round-2 pair (2, 3). -/
theorem getSnakeDraftPick_spec_witness :
    ((NUM_TEAMS * ((getSnakeDraftPick 13).1 - 1) < 13
        ∧ 13 ≤ NUM_TEAMS * (getSnakeDraftPick 13).1)
      ∧ 1 ≤ (getSnakeDraftPick 13).1 ∧ (getSnakeDraftPick 13).1 ≤ NUM_ROUNDS
      ∧ (getSnakeDraftPick 13).2 < NUM_TEAMS
      ∧ ((getSnakeDraftPick 13).1 % 2 = 1 →
          (getSnakeDraftPick 13).2 = (13 - 1) % NUM_TEAMS)
      ∧ ((getSnakeDraftPick 13).1 % 2 = 0 →
          (getSnakeDraftPick 13).2 = NUM_TEAMS - 1 - (13 - 1) % NUM_TEAMS))
    ∧ (2, 3) ∈ (List.range TOTAL_PICKS).map (fun k => getSnakeDraftPick (k + 1)) :=
  ⟨getSnakeDraftPick_spec.1 13 (by decide),
   getSnakeDraftPick_spec.2.2.1 2 (by decide) 3 (by decide)⟩

/-- C7: in the spec's parametric turn mapping with 12 participants, pick 13
lands on round 2, participant 11 — the first pick of the descending second
round; on the 8-team domain of the code, `turnFor` at `N = 8` agrees with
`getSnakeDraftPick` everywhere. -/
theorem turnFor_twelve_team_scenario :
    turnFor 13 12 = (2, 11)
    ∧ (∀ t ∈ Finset.range 12, turnFor (12 + t + 1) 12 = (2, 11 - t))
    ∧ (∀ n ∈ Finset.Icc 1 TOTAL_PICKS, getSnakeDraftPick n = turnFor n NUM_TEAMS) := by
  decide

/-- Witness for C7: the bounded statements instantiated at the first
descending pick of round 2 and at pick 13 of the 8-team code. -/
theorem turnFor_twelve_team_scenario_witness :
    turnFor (12 + 0 + 1) 12 = (2, 11 - 0)
    ∧ getSnakeDraftPick 13 = turnFor 13 NUM_TEAMS :=
  ⟨turnFor_twelve_team_scenario.2.1 0 (by decide),
   turnFor_twelve_team_scenario.2.2 13 (by decide)⟩

/-! ### Concrete commit fixtures -/

/-- Fixture: a minimal player literal. -/
def mkTestPlayer (id : String) (pos : Position) (rank : Int) (age : Int := 25) :
    Player :=
  { playerId := id, name := "N" ++ id, position := pos, team := "T",
    rank := rank, tier := 3, age := age, byeWeek := 5 }

/-- Fixture for C1: the roster-forced RB pick — only the RB slot is open. -/
def c1Roster : Roster :=
  { teamIndex := 0, teamName := "Team 1",
    qb := some (mkTestPlayer "q" Position.QB 50),
    wr := some (mkTestPlayer "w" Position.WR 51),
    te := some (mkTestPlayer "t" Position.TE 52),
    superflex := some (mkTestPlayer "s" Position.WR 53) }

/-- Fixture for C1: the roster-eligible RB in the pool. -/
def c1PlayerA : Player := mkTestPlayer "A" Position.RB 30

/-- Fixture for C1: the roster-ineligible elite QB left in the pool. -/
def c1PlayerB : Player := mkTestPlayer "B" Position.QB 5

/-- Fixture for C1: board at pick 10 of round 2, team 0 on the clock. -/
def c1Board : BoardState :=
  { picks := [],
    currentPick := { pickNumber := 10, round := 2, teamIndex := 0, isHuman := false },
    settings := { numTeams := 8, numRounds := 5, humanTeamIndex := 7 },
    draftComplete := false }

/-- Fixture for C1: the authoritative store at commit time. -/
def c1Store : KVStore :=
  { board := some c1Board, availablePlayers := some [c1PlayerA, c1PlayerB],
    rosters := fun _ => none, shiftByPick := fun _ => none,
    strategyShifts := none, notes := fun _ => none }

/-- Fixture for C1: a stack-builder commit of the forced RB with the board
analysis computed from the same state. -/
def c1Input : RecordPickInput :=
  { boardState := c1Board, roster := c1Roster,
    availablePlayers := [c1PlayerA, c1PlayerB], pickedPlayer := c1PlayerA,
    reasoning := "forced", confidence := 1,
    personaName := some "drafter-stack-builder",
    boardAnalysis := some (analyzeBoardState [] [c1PlayerA, c1PlayerB] 10) }

/-- C1 (refuting evaluation): every pool player the picking roster can legally
accept shares the position RB — a forced pick — yet the commit succeeds AND
records a strategy-shift deviation, triggered by the elite QB the roster could
not legally draft: `recordPick` passes no roster-restricted shift context to
`detectPersonaShift`, so ineligible alternatives do trigger deviations. -/
theorem recordPick_forced_pick_shift_recorded :
    ([c1PlayerA, c1PlayerB].filter
        (fun p => canDraftPosition c1Roster p.position) = [c1PlayerA])
    ∧ c1PlayerA.position = Position.RB
    ∧ (recordPick c1Store c1Input 0).1.success = true
    ∧ (recordPick c1Store c1Input 0).1.strategyShift.isSome = true
    ∧ ((recordPick c1Store c1Input 0).1.strategyShift.map (fun s => s.category))
        = some ShiftCategory.positionalPivot := by
  decide

/-! ### Roster re-read fixtures (C2) -/

/-- Fixture for C2: the store's roster for team 0, completely full. -/
def c2StoreRoster : Roster :=
  { teamIndex := 0, teamName := "Team 1",
    qb := some (mkTestPlayer "q2" Position.QB 60),
    rb := some (mkTestPlayer "r2" Position.RB 61),
    wr := some (mkTestPlayer "w2" Position.WR 62),
    te := some (mkTestPlayer "t2" Position.TE 63),
    superflex := some (mkTestPlayer "s2" Position.WR 64) }

/-- Fixture for C2: the one player in the pool. -/
def c2Player : Player := mkTestPlayer "C" Position.RB 3

/-- Fixture for C2: board at pick 1, team 0 on the clock. -/
def c2Board : BoardState :=
  { picks := [],
    currentPick := { pickNumber := 1, round := 1, teamIndex := 0, isHuman := false },
    settings := { numTeams := 8, numRounds := 5, humanTeamIndex := 7 },
    draftComplete := false }

/-- Fixture for C2: a store whose team-0 roster is full. -/
def c2Store : KVStore :=
  { board := some c2Board, availablePlayers := some [c2Player],
    rosters := fun i => if i = 0 then some c2StoreRoster else none,
    shiftByPick := fun _ => none, strategyShifts := none, notes := fun _ => none }

/-- Fixture for C2: a commit whose caller-side roster copy is empty. -/
def c2Input : RecordPickInput :=
  { boardState := c2Board,
    roster := { teamIndex := 0, teamName := "Team 1" },
    availablePlayers := [c2Player], pickedPlayer := c2Player,
    reasoning := "stale roster", confidence := 1 }

/-- C2 counterexample: the store's roster for the picking team is full and
cannot accept the picked RB, yet the commit succeeds because `recordPick`
validates the roster-slot check against the caller's (stale, empty) roster
copy — the team roster is never re-read from the store. -/
theorem recordPick_roster_not_reread :
    c2Store.rosters 0 = some c2StoreRoster
    ∧ canDraftPosition c2StoreRoster c2Player.position = false
    ∧ c2Input.roster ≠ c2StoreRoster
    ∧ (recordPick c2Store c2Input 0).1.success = true := by
  refine ⟨rfl, by decide, by decide, by decide⟩

/-! ### Structure of a commit attempt -/

theorem recordPick_success_elim (kv : KVStore) (input : RecordPickInput) (now : Nat)
    (hs : (recordPick kv input now).1.success = true) :
    ∃ b pool p, kv.board = some b ∧ kv.availablePlayers = some pool
      ∧ b.draftComplete = false
      ∧ b.currentPick.pickNumber = input.boardState.currentPick.pickNumber
      ∧ b.currentPick.teamIndex = input.boardState.currentPick.teamIndex
      ∧ pool.find? (fun q => q.playerId == input.pickedPlayer.playerId) = some p
      ∧ canDraftPosition input.roster input.pickedPlayer.position = true
      ∧ canDraftPosition input.roster p.position = true
      ∧ recordPick kv input now = commitPick kv input b pool p now := by
  have hpre : canDraftPosition input.roster input.pickedPlayer.position = true := by
    by_contra h
    simp [recordPick, h] at hs
  obtain ⟨b, hb⟩ : ∃ b, kv.board = some b := by
    cases h : kv.board with
    | none => simp [recordPick, hpre, h] at hs
    | some b => exact ⟨b, rfl⟩
  have hcomplete : b.draftComplete = false := by
    by_contra h
    rw [Bool.not_eq_false] at h
    simp [recordPick, hpre, hb, h] at hs
  by_cases hc : (b.currentPick.pickNumber ≠ input.boardState.currentPick.pickNumber
      ∨ b.currentPick.teamIndex ≠ input.boardState.currentPick.teamIndex)
  · simp [recordPick, hpre, hb, hcomplete, hc] at hs
  push_neg at hc
  obtain ⟨hpn, hti⟩ := hc
  obtain ⟨pool, hpool⟩ : ∃ pool, kv.availablePlayers = some pool := by
    cases h : kv.availablePlayers with
    | none => simp [recordPick, hpre, hb, hcomplete, hpn, hti, h] at hs
    | some pool => exact ⟨pool, rfl⟩
  obtain ⟨p, hfind⟩ : ∃ p,
      pool.find? (fun q => q.playerId == input.pickedPlayer.playerId) = some p := by
    cases h : pool.find? (fun q => q.playerId == input.pickedPlayer.playerId) with
    | none => simp [recordPick, hpre, hb, hcomplete, hpn, hti, hpool, h] at hs
    | some p => exact ⟨p, rfl⟩
  have hfit : canDraftPosition input.roster p.position = true := by
    by_contra h
    simp [recordPick, hpre, hb, hcomplete, hpn, hti, hpool, hfind, h] at hs
  refine ⟨b, pool, p, hb, hpool, hcomplete, hpn, hti, hfind, hpre, hfit, ?_⟩
  simp [recordPick, hpre, hb, hcomplete, hpn, hti, hpool, hfind, hfit]

/-- C2 (amended): `recordPick` re-reads only the board state (pick list and
cursor) and the available pool fresh from the store: the commit decision is
invariant under any change to the store's rosters (the team roster is never
re-read), while a successful commit certifies that the fresh board was
incomplete, the fresh cursor matched the proposal, the picked player was found
in the fresh pool, and the roster-slot check passed against the caller's
roster copy. -/
theorem recordPick_fresh_reads (kv : KVStore) (input : RecordPickInput) (now : Nat)
    (r' : Nat → Option Roster) :
    ((recordPick { kv with rosters := r' } input now).1 = (recordPick kv input now).1)
    ∧ ((recordPick kv input now).1.success = true →
        ∃ b pool p, kv.board = some b ∧ kv.availablePlayers = some pool
          ∧ b.draftComplete = false
          ∧ b.currentPick.pickNumber = input.boardState.currentPick.pickNumber
          ∧ b.currentPick.teamIndex = input.boardState.currentPick.teamIndex
          ∧ p ∈ pool ∧ p.playerId = input.pickedPlayer.playerId
          ∧ canDraftPosition input.roster p.position = true) := by
  constructor
  · rcases kv with ⟨bo, av, ro, sh, ss, no⟩
    unfold recordPick
    dsimp only
    repeat' split <;> try rfl
  · intro hs
    obtain ⟨b, pool, p, hb, hpool, hcomp, hpn, hti, hfind, _, hfit, _⟩ :=
      recordPick_success_elim kv input now hs
    exact ⟨b, pool, p, hb, hpool, hcomp, hpn, hti,
      List.mem_of_find?_eq_some hfind,
      by simpa using List.find?_some hfind, hfit⟩

/-- Witness for C2 (amended): the success certificate evaluated on the
concrete commit of `c2Input` against `c2Store`. -/
theorem recordPick_fresh_reads_witness :
    (recordPick c2Store c2Input 0).1.success = true
    ∧ (∃ b pool p, c2Store.board = some b ∧ c2Store.availablePlayers = some pool
        ∧ b.draftComplete = false
        ∧ b.currentPick.pickNumber = c2Input.boardState.currentPick.pickNumber
        ∧ b.currentPick.teamIndex = c2Input.boardState.currentPick.teamIndex
        ∧ p ∈ pool ∧ p.playerId = c2Input.pickedPlayer.playerId
        ∧ canDraftPosition c2Input.roster p.position = true) :=
  ⟨by decide, (recordPick_fresh_reads c2Store c2Input 0 (fun _ => none)).2 (by decide)⟩

/-! ### Rejection behaviour (C4) -/

/-- Fixture for C4: commit input whose roster copy is full (the pre-check
rejects) while its board copy differs from the store's board. -/
def c4Input : RecordPickInput :=
  { boardState := c1Board, roster := c2StoreRoster,
    availablePlayers := [c2Player], pickedPlayer := c2Player,
    reasoning := "pre-check reject", confidence := 1 }

/-- Fixture for C4: a store whose board and pool differ from the caller's
copies. -/
def c4Store : KVStore :=
  { board := some c2Board, availablePlayers := some [],
    rosters := fun _ => none, shiftByPick := fun _ => none,
    strategyShifts := none, notes := fun _ => none }

/-- C4 counterexample: the roster-slot pre-check rejection happens before the
store is read, so this error result echoes the caller's stale board and pool
rather than the fresh authoritative state (the store holds `c2Board` and an
empty pool, the result carries neither); the store is left untouched. -/
theorem recordPick_reject_stale_echo :
    c4Store.board = some c2Board
    ∧ c4Store.availablePlayers = some []
    ∧ (recordPick c4Store c4Input 0).1.success = false
    ∧ (recordPick c4Store c4Input 0).2 = c4Store
    ∧ (recordPick c4Store c4Input 0).1.boardState ≠ c2Board
    ∧ (recordPick c4Store c4Input 0).1.availablePlayers ≠ [] := by
  refine ⟨rfl, rfl, by decide, rfl, by decide, by decide⟩

theorem recordPick_success_or_unchanged (kv : KVStore) (input : RecordPickInput)
    (now : Nat) :
    (recordPick kv input now).1.success = true ∨ (recordPick kv input now).2 = kv := by
  rcases kv with ⟨bo, av, ro, sh, ss, no⟩
  unfold recordPick
  dsimp only
  repeat' split
  all_goals first | (right; rfl) | (left; rfl)

/-- C4 (amended): a rejected commit performs no KV writes, and every rejection
issued after the store read carries the freshly read board state and, whenever
the store holds a player pool, that fresh pool; only the pre-read roster
pre-check rejection (and the missing-state rejections, for the missing piece)
echo the caller's copies. -/
theorem recordPick_reject_frame (kv : KVStore) (input : RecordPickInput) (now : Nat) :
    (recordPick kv input now).1.success = false →
      (recordPick kv input now).2 = kv
      ∧ (canDraftPosition input.roster input.pickedPlayer.position = true →
          ∀ b, kv.board = some b →
            (recordPick kv input now).1.boardState = b
            ∧ ∀ pool, kv.availablePlayers = some pool →
                (recordPick kv input now).1.availablePlayers = pool) := by
  intro hs
  refine ⟨?_, ?_⟩
  · rcases recordPick_success_or_unchanged kv input now with h | h
    · rw [h] at hs; cases hs
    · exact h
  · intro hpre b hb
    cases hcomp : b.draftComplete with
    | true =>
      simp only [recordPick, hpre, hb, hcomp]
      constructor
      · simp
      · intro pool hp
        simp [hp]
    | false =>
      by_cases hc : (b.currentPick.pickNumber ≠ input.boardState.currentPick.pickNumber
          ∨ b.currentPick.teamIndex ≠ input.boardState.currentPick.teamIndex)
      · simp only [recordPick, hpre, hb, hcomp]
        constructor
        · simp [hc]
        · intro pool hp
          simp [hc, hp]
      · push_neg at hc
        obtain ⟨hpn, hti⟩ := hc
        cases hav : kv.availablePlayers with
        | none =>
          constructor
          · simp [recordPick, hpre, hb, hcomp, hpn, hti, hav]
          · intro pool hp
            cases hp
        | some pool0 =>
          cases hfind : pool0.find? (fun q =>
              q.playerId == input.pickedPlayer.playerId) with
          | none =>
            constructor
            · simp [recordPick, hpre, hb, hcomp, hpn, hti, hav, hfind]
            · intro pool hp
              cases hp
              simp [recordPick, hpre, hb, hcomp, hpn, hti, hav, hfind]
          | some p =>
            cases hfit : canDraftPosition input.roster p.position with
            | true =>
              exfalso
              have : (recordPick kv input now).1.success = true := by
                have heq : recordPick kv input now
                    = commitPick kv input b pool0 p now := by
                  simp [recordPick, hpre, hb, hcomp, hpn, hti, hav, hfind, hfit]
                rw [heq]
                rfl
              rw [this] at hs
              cases hs
            | false =>
              constructor
              · simp [recordPick, hpre, hb, hcomp, hpn, hti, hav, hfind, hfit]
              · intro pool hp
                cases hp
                simp [recordPick, hpre, hb, hcomp, hpn, hti, hav, hfind, hfit]

/-- Fixture for C4 amended witness: a store at pick 1 with a one-player pool. -/
def c4StoreMismatch : KVStore :=
  { board := some c2Board, availablePlayers := some [c2Player],
    rosters := fun _ => none, shiftByPick := fun _ => none,
    strategyShifts := none, notes := fun _ => none }

/-- Fixture for C4 amended witness: a proposal computed for pick 10, which the
fresh cursor (pick 1) rejects as a conflict. -/
def c4MismatchInput : RecordPickInput :=
  { boardState := c1Board, roster := { teamIndex := 0, teamName := "Team 1" },
    availablePlayers := [c2Player], pickedPlayer := c2Player,
    reasoning := "late proposal", confidence := 1 }

/-- Witness for C4 (amended): evaluated at a turn-cursor-mismatch rejection
(the caller expects pick 10 while the fresh store sits at pick 1). -/
theorem recordPick_reject_frame_witness :
    ((recordPick c4StoreMismatch c4MismatchInput 0).1.success = false)
    ∧ ((recordPick c4StoreMismatch c4MismatchInput 0).2 = c4StoreMismatch
      ∧ (canDraftPosition c4MismatchInput.roster
            c4MismatchInput.pickedPlayer.position = true →
          ∀ b, c4StoreMismatch.board = some b →
            (recordPick c4StoreMismatch c4MismatchInput 0).1.boardState = b
            ∧ ∀ pool, c4StoreMismatch.availablePlayers = some pool →
                (recordPick c4StoreMismatch c4MismatchInput 0).1.availablePlayers
                  = pool)) :=
  ⟨by decide, recordPick_reject_frame c4StoreMismatch c4MismatchInput 0 (by decide)⟩

/-! ### Frame lemmas for the commit phase -/

theorem applyShiftWrites_board (kv : KVStore) (d : Option StrategyShift)
    (cp : CurrentPick) (now : Nat) :
    (applyShiftWrites kv d cp now).board = kv.board := by
  cases d <;> rfl

theorem applyShiftWrites_availablePlayers (kv : KVStore) (d : Option StrategyShift)
    (cp : CurrentPick) (now : Nat) :
    (applyShiftWrites kv d cp now).availablePlayers = kv.availablePlayers := by
  cases d <;> rfl

theorem applyShiftWrites_rosters (kv : KVStore) (d : Option StrategyShift)
    (cp : CurrentPick) (now : Nat) :
    (applyShiftWrites kv d cp now).rosters = kv.rosters := by
  cases d <;> rfl

theorem applyShiftWrites_shiftByPick_other (kv : KVStore) (d : Option StrategyShift)
    (cp : CurrentPick) (now : Nat) (m : Nat) (hm : m ≠ cp.pickNumber) :
    (applyShiftWrites kv d cp now).shiftByPick m = kv.shiftByPick m := by
  cases d with
  | none => rfl
  | some s => simp [applyShiftWrites, hm]

theorem applyShiftWrites_notes_other (kv : KVStore) (d : Option StrategyShift)
    (cp : CurrentPick) (now : Nat) (i : Nat) (hi : i ≠ cp.teamIndex) :
    (applyShiftWrites kv d cp now).notes i = kv.notes i := by
  cases d with
  | none => rfl
  | some s => simp [applyShiftWrites, hi]

theorem applyShiftWrites_some (kv : KVStore) (s : StrategyShift)
    (cp : CurrentPick) (now : Nat) :
    (applyShiftWrites kv (some s) cp now).shiftByPick cp.pickNumber = some s
    ∧ (applyShiftWrites kv (some s) cp now).strategyShifts
        = some ((kv.strategyShifts.getD []) ++ [s]) := by
  constructor
  · simp [applyShiftWrites]
  · cases hss : kv.strategyShifts <;> simp [applyShiftWrites, hss]

/-- Slot view of a roster, by roster slot name. -/
def rosterSlotGet (r : Roster) : RosterSlot → Option Player
  | RosterSlot.QB => r.qb
  | RosterSlot.RB => r.rb
  | RosterSlot.WR => r.wr
  | RosterSlot.TE => r.te
  | RosterSlot.SUPERFLEX => r.superflex

theorem assignRosterSlot_fills (r : Roster) (pos : Position) (pl : Player)
    (h : canDraftPosition r pos = true) :
    ∃ slot, assignRosterSlot r pos = some slot
      ∧ rosterSlotGet r slot = none
      ∧ rosterSlotGet (setRosterSlot r slot pl) slot = some pl
      ∧ ∀ s, s ≠ slot →
          rosterSlotGet (setRosterSlot r slot pl) s = rosterSlotGet r s := by
  cases pos with
  | QB =>
    cases hqb : r.qb with
    | none =>
      refine ⟨RosterSlot.QB, by simp [assignRosterSlot, hqb], ?_, rfl, ?_⟩
      · simp [rosterSlotGet, hqb]
      · intro s hs
        cases s <;> simp_all [rosterSlotGet, setRosterSlot]
    | some q =>
      cases hsf : r.superflex with
      | none =>
        refine ⟨RosterSlot.SUPERFLEX, by simp [assignRosterSlot, hqb, hsf], ?_, rfl, ?_⟩
        · simp [rosterSlotGet, hsf]
        · intro s hs
          cases s <;> simp_all [rosterSlotGet, setRosterSlot]
      | some sf =>
        exfalso
        simp [canDraftPosition, hqb, hsf] at h
  | RB =>
    cases hrb : r.rb with
    | none =>
      refine ⟨RosterSlot.RB, by simp [assignRosterSlot, hrb], ?_, rfl, ?_⟩
      · simp [rosterSlotGet, hrb]
      · intro s hs
        cases s <;> simp_all [rosterSlotGet, setRosterSlot]
    | some q =>
      cases hsf : r.superflex with
      | none =>
        refine ⟨RosterSlot.SUPERFLEX, by simp [assignRosterSlot, hrb, hsf], ?_, rfl, ?_⟩
        · simp [rosterSlotGet, hsf]
        · intro s hs
          cases s <;> simp_all [rosterSlotGet, setRosterSlot]
      | some sf =>
        exfalso
        simp [canDraftPosition, hrb, hsf] at h
  | WR =>
    cases hwr : r.wr with
    | none =>
      refine ⟨RosterSlot.WR, by simp [assignRosterSlot, hwr], ?_, rfl, ?_⟩
      · simp [rosterSlotGet, hwr]
      · intro s hs
        cases s <;> simp_all [rosterSlotGet, setRosterSlot]
    | some q =>
      cases hsf : r.superflex with
      | none =>
        refine ⟨RosterSlot.SUPERFLEX, by simp [assignRosterSlot, hwr, hsf], ?_, rfl, ?_⟩
        · simp [rosterSlotGet, hsf]
        · intro s hs
          cases s <;> simp_all [rosterSlotGet, setRosterSlot]
      | some sf =>
        exfalso
        simp [canDraftPosition, hwr, hsf] at h
  | TE =>
    cases hte : r.te with
    | none =>
      refine ⟨RosterSlot.TE, by simp [assignRosterSlot, hte], ?_, rfl, ?_⟩
      · simp [rosterSlotGet, hte]
      · intro s hs
        cases s <;> simp_all [rosterSlotGet, setRosterSlot]
    | some q =>
      cases hsf : r.superflex with
      | none =>
        refine ⟨RosterSlot.SUPERFLEX, by simp [assignRosterSlot, hte, hsf], ?_, rfl, ?_⟩
        · simp [rosterSlotGet, hsf]
        · intro s hs
          cases s <;> simp_all [rosterSlotGet, setRosterSlot]
      | some sf =>
        exfalso
        simp [canDraftPosition, hte, hsf] at h

theorem filter_ne_playerId_length (l : List Player) (p : Player) (hmem : p ∈ l)
    (hnd : (l.map (fun q => q.playerId)).Nodup) :
    (l.filter (fun q => q.playerId ≠ p.playerId)).length + 1 = l.length := by
  induction l with
  | nil => cases hmem
  | cons a as ih =>
    rw [List.map_cons, List.nodup_cons] at hnd
    obtain ⟨hna, hnd'⟩ := hnd
    rcases List.mem_cons.mp hmem with rfl | hmem'
    · have hfilter : as.filter (fun q => q.playerId ≠ p.playerId) = as := by
        apply List.filter_eq_self.mpr
        intro q hq
        simp only [ne_eq, decide_eq_true_eq]
        intro hqp
        exact hna (by rw [← hqp]; exact List.mem_map_of_mem _ hq)
      rw [List.filter_cons, if_neg (by simp), hfilter]
      simp
    · have hne : a.playerId ≠ p.playerId := by
        intro he
        exact hna (he ▸ List.mem_map_of_mem _ hmem')
      rw [List.filter_cons, if_pos (by simp [hne]), List.length_cons,
        List.length_cons]
      have := ih hmem' hnd'
      omega

theorem detectShiftRecord_fields (input : RecordPickInput) (pick : Pick)
    (avail : List Player) (lp : Player) (sft : StrategyShift)
    (h : detectShiftRecord input pick avail lp = some sft) :
    sft.pickNumber = pick.pickNumber ∧ sft.teamIndex = pick.teamIndex := by
  unfold detectShiftRecord at h
  repeat' split at h
  all_goals first
    | (injection h with h; subst h; exact ⟨rfl, rfl⟩)
    | injection h

theorem commitPick_eq (kv : KVStore) (input : RecordPickInput) (b : BoardState)
    (pool : List Player) (p : Player) (now : Nat) :
    commitPick kv input b pool p now =
      (let cp := b.currentPick
       let pk : Pick := ⟨cp.pickNumber, cp.round, cp.teamIndex, p.playerId, p.name,
         p.position, input.reasoning, input.confidence⟩
       let d := detectShiftRecord input pk pool p
       let ur := match assignRosterSlot input.roster p.position with
         | some slot => setRosterSlot input.roster slot p
         | none => input.roster
       let ua := pool.filter (fun q => q.playerId ≠ p.playerId)
       let ub := commitBoard b pk
       let ks := applyShiftWrites kv d cp now
       (⟨true, msgSelects cp.teamIndex p.name p.position cp.pickNumber, some pk, ub,
         ur, ua, ub.draftComplete, d⟩,
        ⟨some ub, some ua,
         fun i => if i = cp.teamIndex then some ur else ks.rosters i,
         ks.shiftByPick, ks.strategyShifts, ks.notes⟩)) := rfl

/-- C5: every successful commit removes exactly the one picked player from the
pool (its size drops by one, given distinct player ids), appends exactly one
pick record carrying the fresh cursor, writes exactly the picking team's
roster with exactly one previously empty slot newly filled, advances the
cursor by exactly one pick — or, when the committed pick number equals
TOTAL_PICKS, marks the draft complete leaving the cursor in place — keeps the
settings and every other team's roster, note list and every other pick's
deviation record unchanged, and appends at most one optional deviation
record (whose keys all change only when the detector fired, and which carries
the committed pick number and team). -/
theorem recordPick_success_frame (kv : KVStore) (input : RecordPickInput) (now : Nat)
    (b : BoardState) (pool : List Player)
    (hs : (recordPick kv input now).1.success = true)
    (hb : kv.board = some b) (hpool : kv.availablePlayers = some pool)
    (hnd : (pool.map (fun q => q.playerId)).Nodup) :
    ∃ b' pool' p,
      (recordPick kv input now).2.board = some b'
      ∧ (recordPick kv input now).2.availablePlayers = some pool'
      ∧ p ∈ pool ∧ p.playerId = input.pickedPlayer.playerId
      ∧ pool' = pool.filter (fun q => q.playerId ≠ p.playerId)
      ∧ pool'.length + 1 = pool.length
      ∧ (∃ pk, b'.picks = b.picks ++ [pk]
          ∧ pk.pickNumber = b.currentPick.pickNumber
          ∧ pk.teamIndex = b.currentPick.teamIndex
          ∧ pk.playerId = p.playerId
          ∧ (recordPick kv input now).1.pick = some pk)
      ∧ (∀ i, i ≠ b.currentPick.teamIndex →
          (recordPick kv input now).2.rosters i = kv.rosters i)
      ∧ (∃ slot, assignRosterSlot input.roster p.position = some slot
          ∧ rosterSlotGet input.roster slot = none
          ∧ (recordPick kv input now).2.rosters b.currentPick.teamIndex
              = some (setRosterSlot input.roster slot p)
          ∧ rosterSlotGet (setRosterSlot input.roster slot p) slot = some p
          ∧ ∀ s, s ≠ slot →
              rosterSlotGet (setRosterSlot input.roster slot p) s
                = rosterSlotGet input.roster s)
      ∧ (b.currentPick.pickNumber = TOTAL_PICKS →
          b'.draftComplete = true ∧ b'.currentPick = b.currentPick)
      ∧ (b.currentPick.pickNumber < TOTAL_PICKS →
          b'.draftComplete = false
          ∧ b'.currentPick.pickNumber = b.currentPick.pickNumber + 1)
      ∧ b'.settings = b.settings
      ∧ (∀ m, m ≠ b.currentPick.pickNumber →
          (recordPick kv input now).2.shiftByPick m = kv.shiftByPick m)
      ∧ (∀ i, i ≠ b.currentPick.teamIndex →
          (recordPick kv input now).2.notes i = kv.notes i)
      ∧ ((recordPick kv input now).1.strategyShift = none →
          (recordPick kv input now).2.shiftByPick = kv.shiftByPick
          ∧ (recordPick kv input now).2.strategyShifts = kv.strategyShifts
          ∧ (recordPick kv input now).2.notes = kv.notes)
      ∧ (∀ sft, (recordPick kv input now).1.strategyShift = some sft →
          (recordPick kv input now).2.shiftByPick b.currentPick.pickNumber = some sft
          ∧ (recordPick kv input now).2.strategyShifts
              = some ((kv.strategyShifts.getD []) ++ [sft])
          ∧ sft.pickNumber = b.currentPick.pickNumber
          ∧ sft.teamIndex = b.currentPick.teamIndex) := by
  obtain ⟨b0, pool0, p0, hb0, hpool0, hcomp, hpn, hti, hfind, hpre, hfit, heq⟩ :=
    recordPick_success_elim kv input now hs
  have hbb : b = b0 := by
    rw [hb] at hb0
    exact Option.some.inj hb0
  subst hbb
  have hpp : pool = pool0 := by
    rw [hpool] at hpool0
    exact Option.some.inj hpool0
  subst hpp
  have hmem : p0 ∈ pool := List.mem_of_find?_eq_some hfind
  have hpid : p0.playerId = input.pickedPlayer.playerId := by
    simpa using List.find?_some hfind
  obtain ⟨slot, hslot, hempty, hget, hothers⟩ :=
    assignRosterSlot_fills input.roster p0.position p0 hfit
  rw [heq, commitPick_eq]
  dsimp only
  refine ⟨commitBoard b ⟨b.currentPick.pickNumber, b.currentPick.round,
      b.currentPick.teamIndex, p0.playerId, p0.name, p0.position,
      input.reasoning, input.confidence⟩,
    pool.filter (fun q => q.playerId ≠ p0.playerId), p0,
    rfl, rfl, hmem, hpid, rfl,
    filter_ne_playerId_length pool p0 hmem hnd,
    ⟨_, rfl, rfl, rfl, rfl, rfl⟩, ?_, ?_, ?_, ?_, rfl, ?_, ?_, ?_, ?_⟩
  · intro i hi
    rw [if_neg hi, applyShiftWrites_rosters]
  · refine ⟨slot, hslot, hempty, ?_, hget, hothers⟩
    rw [if_pos rfl, hslot]
  · intro hlast
    constructor
    · simp [commitBoard, hlast]
    · simp [commitBoard, hlast]
  · intro hlt
    have hnotlast : ¬(TOTAL_PICKS ≤ b.currentPick.pickNumber) := not_le.mpr hlt
    constructor
    · simp [commitBoard, hnotlast, hcomp]
    · simp [commitBoard, hnotlast, advanceCurrentPick]
  · intro m hm
    exact applyShiftWrites_shiftByPick_other kv _ b.currentPick now m hm
  · intro i hi
    exact applyShiftWrites_notes_other kv _ b.currentPick now i hi
  · intro h0
    rw [h0]
    exact ⟨rfl, rfl, rfl⟩
  · intro sft h1
    have hfields := detectShiftRecord_fields input _ pool p0 sft h1
    rw [h1]
    obtain ⟨hsw1, hsw2⟩ := applyShiftWrites_some kv sft b.currentPick now
    exact ⟨hsw1, hsw2, hfields.1, hfields.2⟩

/-- Witness for C5: the frame conditions evaluated on the concrete one-player
commit of `c2Input` against `c2Store`. -/
theorem recordPick_success_frame_witness :
    ((recordPick c2Store c2Input 0).1.success = true)
    ∧ (c2Store.board = some c2Board)
    ∧ (c2Store.availablePlayers = some [c2Player])
    ∧ (([c2Player].map (fun q => q.playerId)).Nodup)
    ∧ (∃ b' pool' p,
      (recordPick c2Store c2Input 0).2.board = some b'
      ∧ (recordPick c2Store c2Input 0).2.availablePlayers = some pool'
      ∧ p ∈ [c2Player] ∧ p.playerId = c2Input.pickedPlayer.playerId
      ∧ pool' = [c2Player].filter (fun q => q.playerId ≠ p.playerId)
      ∧ pool'.length + 1 = [c2Player].length
      ∧ (∃ pk, b'.picks = c2Board.picks ++ [pk]
          ∧ pk.pickNumber = c2Board.currentPick.pickNumber
          ∧ pk.teamIndex = c2Board.currentPick.teamIndex
          ∧ pk.playerId = p.playerId
          ∧ (recordPick c2Store c2Input 0).1.pick = some pk)
      ∧ (∀ i, i ≠ c2Board.currentPick.teamIndex →
          (recordPick c2Store c2Input 0).2.rosters i = c2Store.rosters i)
      ∧ (∃ slot, assignRosterSlot c2Input.roster p.position = some slot
          ∧ rosterSlotGet c2Input.roster slot = none
          ∧ (recordPick c2Store c2Input 0).2.rosters c2Board.currentPick.teamIndex
              = some (setRosterSlot c2Input.roster slot p)
          ∧ rosterSlotGet (setRosterSlot c2Input.roster slot p) slot = some p
          ∧ ∀ s, s ≠ slot →
              rosterSlotGet (setRosterSlot c2Input.roster slot p) s
                = rosterSlotGet c2Input.roster s)
      ∧ (c2Board.currentPick.pickNumber = TOTAL_PICKS →
          b'.draftComplete = true ∧ b'.currentPick = c2Board.currentPick)
      ∧ (c2Board.currentPick.pickNumber < TOTAL_PICKS →
          b'.draftComplete = false
          ∧ b'.currentPick.pickNumber = c2Board.currentPick.pickNumber + 1)
      ∧ b'.settings = c2Board.settings
      ∧ (∀ m, m ≠ c2Board.currentPick.pickNumber →
          (recordPick c2Store c2Input 0).2.shiftByPick m = c2Store.shiftByPick m)
      ∧ (∀ i, i ≠ c2Board.currentPick.teamIndex →
          (recordPick c2Store c2Input 0).2.notes i = c2Store.notes i)
      ∧ ((recordPick c2Store c2Input 0).1.strategyShift = none →
          (recordPick c2Store c2Input 0).2.shiftByPick = c2Store.shiftByPick
          ∧ (recordPick c2Store c2Input 0).2.strategyShifts = c2Store.strategyShifts
          ∧ (recordPick c2Store c2Input 0).2.notes = c2Store.notes)
      ∧ (∀ sft, (recordPick c2Store c2Input 0).1.strategyShift = some sft →
          (recordPick c2Store c2Input 0).2.shiftByPick
              c2Board.currentPick.pickNumber = some sft
          ∧ (recordPick c2Store c2Input 0).2.strategyShifts
              = some ((c2Store.strategyShifts.getD []) ++ [sft])
          ∧ sft.pickNumber = c2Board.currentPick.pickNumber
          ∧ sft.teamIndex = c2Board.currentPick.teamIndex)) :=
  ⟨by decide, rfl, rfl, by decide,
   recordPick_success_frame c2Store c2Input 0 c2Board [c2Player]
     (by decide) rfl rfl (by decide)⟩

/-- C6: two commit attempts prepared for the same turn cursor, run one after
the other against the store (the interleaving in which only the first
proposal still matches the fresh state): the first succeeds, the second is
rejected with the turn-cursor conflict error carrying the fresh state, the
store is left exactly as the winner wrote it, and the pool shrinks by exactly
one player overall. -/
theorem recordPick_conflict_race (kv : KVStore) (in1 in2 : RecordPickInput)
    (now1 now2 : Nat) (b : BoardState) (pool : List Player)
    (hs1 : (recordPick kv in1 now1).1.success = true)
    (hb : kv.board = some b) (hpool : kv.availablePlayers = some pool)
    (hnd : (pool.map (fun q => q.playerId)).Nodup)
    (hlt : b.currentPick.pickNumber < TOTAL_PICKS)
    (hcursor : in2.boardState.currentPick.pickNumber
      = in1.boardState.currentPick.pickNumber)
    (hpre2 : canDraftPosition in2.roster in2.pickedPlayer.position = true) :
    (recordPick (recordPick kv in1 now1).2 in2 now2).1.success = false
    ∧ (∃ latest, (recordPick kv in1 now1).2.board = some latest
        ∧ (recordPick (recordPick kv in1 now1).2 in2 now2).1.message
            = msgConflict in2.boardState.currentPick latest.currentPick
        ∧ (recordPick (recordPick kv in1 now1).2 in2 now2).1.boardState = latest)
    ∧ (recordPick (recordPick kv in1 now1).2 in2 now2).2 = (recordPick kv in1 now1).2
    ∧ (∃ pool', (recordPick kv in1 now1).2.availablePlayers = some pool'
        ∧ pool'.length + 1 = pool.length) := by
  obtain ⟨b0, pool0, p0, hb0, hpool0, hcomp, hpn, hti, hfind, hpre, hfit, heq⟩ :=
    recordPick_success_elim kv in1 now1 hs1
  have hbb : b = b0 := by
    rw [hb] at hb0
    exact Option.some.inj hb0
  subst hbb
  have hpp : pool = pool0 := by
    rw [hpool] at hpool0
    exact Option.some.inj hpool0
  subst hpp
  have hmem : p0 ∈ pool := List.mem_of_find?_eq_some hfind
  rw [heq, commitPick_eq]
  dsimp only
  have hnotlast : ¬(TOTAL_PICKS ≤ b.currentPick.pickNumber) := not_le.mpr hlt
  have hub_pn : (commitBoard b ⟨b.currentPick.pickNumber, b.currentPick.round,
      b.currentPick.teamIndex, p0.playerId, p0.name, p0.position,
      in1.reasoning, in1.confidence⟩).currentPick.pickNumber
      = b.currentPick.pickNumber + 1 := by
    simp [commitBoard, hnotlast, advanceCurrentPick]
  have hub_dc : (commitBoard b ⟨b.currentPick.pickNumber, b.currentPick.round,
      b.currentPick.teamIndex, p0.playerId, p0.name, p0.position,
      in1.reasoning, in1.confidence⟩).draftComplete = false := by
    simp [commitBoard, hnotlast, hcomp]
  have hne : (commitBoard b ⟨b.currentPick.pickNumber, b.currentPick.round,
      b.currentPick.teamIndex, p0.playerId, p0.name, p0.position,
      in1.reasoning, in1.confidence⟩).currentPick.pickNumber
      ≠ in2.boardState.currentPick.pickNumber := by
    rw [hub_pn, hcursor, ← hpn]
    exact Nat.succ_ne_self _
  refine ⟨?_, ⟨_, rfl, ?_, ?_⟩, ?_, ⟨_, rfl,
    filter_ne_playerId_length pool p0 hmem hnd⟩⟩
  · simp [recordPick, hpre2, hub_dc, hne]
  · simp [recordPick, hpre2, hub_dc, hne]
  · simp [recordPick, hpre2, hub_dc, hne]
  · simp [recordPick, hpre2, hub_dc, hne]

/-- Witness for C6: a duplicate of the `c2Input` commit raced against itself —
the first run wins, the re-run hits the conflict rejection. -/
theorem recordPick_conflict_race_witness :
    ((recordPick c2Store c2Input 0).1.success = true)
    ∧ (c2Store.board = some c2Board)
    ∧ (c2Store.availablePlayers = some [c2Player])
    ∧ (([c2Player].map (fun q => q.playerId)).Nodup)
    ∧ (c2Board.currentPick.pickNumber < TOTAL_PICKS)
    ∧ (c2Input.boardState.currentPick.pickNumber
        = c2Input.boardState.currentPick.pickNumber)
    ∧ (canDraftPosition c2Input.roster c2Input.pickedPlayer.position = true)
    ∧ ((recordPick (recordPick c2Store c2Input 0).2 c2Input 1).1.success = false
      ∧ (∃ latest, (recordPick c2Store c2Input 0).2.board = some latest
          ∧ (recordPick (recordPick c2Store c2Input 0).2 c2Input 1).1.message
              = msgConflict c2Input.boardState.currentPick latest.currentPick
          ∧ (recordPick (recordPick c2Store c2Input 0).2 c2Input 1).1.boardState
              = latest)
      ∧ (recordPick (recordPick c2Store c2Input 0).2 c2Input 1).2
          = (recordPick c2Store c2Input 0).2
      ∧ (∃ pool', (recordPick c2Store c2Input 0).2.availablePlayers = some pool'
          ∧ pool'.length + 1 = [c2Player].length)) :=
  ⟨by decide, rfl, rfl, by decide, by decide, rfl, by decide,
   recordPick_conflict_race c2Store c2Input c2Input 0 1 c2Board [c2Player]
     (by decide) rfl rfl (by decide) (by decide) rfl (by decide)⟩

/-- C10: in every store reachable from a fresh draft by successful commits,
the cursor's pick number stays within 1..TOTAL_PICKS (40), the draft is
complete exactly when all 40 picks are committed, and while incomplete the
pick number is one past the committed pick count; moreover any successful
commit of pick number TOTAL_PICKS marks the draft complete while leaving the
cursor at pick TOTAL_PICKS. -/
theorem recordPick_cursor_invariant :
    (∀ kv, ReachableDraft kv → ∀ b, kv.board = some b →
      1 ≤ b.currentPick.pickNumber ∧ b.currentPick.pickNumber ≤ TOTAL_PICKS
      ∧ (b.draftComplete = true ↔ b.picks.length = TOTAL_PICKS)
      ∧ (b.draftComplete = false → b.picks.length + 1 = b.currentPick.pickNumber))
    ∧ (∀ kv input now b, (recordPick kv input now).1.success = true →
        kv.board = some b → b.currentPick.pickNumber = TOTAL_PICKS →
        ∀ b', (recordPick kv input now).2.board = some b' →
          b'.draftComplete = true ∧ b'.currentPick = b.currentPick) := by
  constructor
  · intro kv hreach
    induction hreach with
    | init kv0 humanTeamIndex hb0 =>
      intro b hb
      rw [hb0] at hb
      have hbe : createInitialBoardState humanTeamIndex = b := Option.some.inj hb
      subst hbe
      refine ⟨?_, ?_, ?_, ?_⟩ <;>
        simp [createInitialBoardState, TOTAL_PICKS, NUM_TEAMS, NUM_ROUNDS]
    | step kv input now hr hs ih =>
      intro b' hb'
      obtain ⟨b0, pool0, p0, hb0, hpool0, hcomp, _, _, hfind, _, _, heq⟩ :=
        recordPick_success_elim kv input now hs
      obtain ⟨hge, hle, hiff, hlen⟩ := ih b0 hb0
      have hlen0 := hlen hcomp
      rw [heq, commitPick_eq] at hb'
      dsimp only at hb'
      have hbc := Option.some.inj hb'
      subst hbc
      by_cases hlast : TOTAL_PICKS ≤ b0.currentPick.pickNumber
      · have hn40 : b0.currentPick.pickNumber = TOTAL_PICKS :=
          le_antisymm hle hlast
      
        refine ⟨?_, ?_, ?_, ?_⟩
        · simp [commitBoard, hlast]
          omega
        · simp [commitBoard, hlast]
          omega
        · simp [commitBoard, hlast]
          omega
        · simp [commitBoard, hlast]
      · refine ⟨?_, ?_, ?_, ?_⟩
        · simp [commitBoard, hlast, advanceCurrentPick]
        · simp [commitBoard, hlast, advanceCurrentPick]
          omega
        · simp [commitBoard, hlast, hcomp]
          omega
        · simp [commitBoard, hlast, hcomp, advanceCurrentPick]
          omega
  · intro kv input now b hs hb hn40 b' hb'
    obtain ⟨b0, pool0, p0, hb0, hpool0, hcomp, _, _, hfind, _, _, heq⟩ :=
      recordPick_success_elim kv input now hs
    have hbb : b = b0 := by
      rw [hb] at hb0
      exact Option.some.inj hb0
    subst hbb
    have hlast : TOTAL_PICKS ≤ b.currentPick.pickNumber := le_of_eq hn40.symm
    rw [heq, commitPick_eq] at hb'
    dsimp only at hb'
    have hbc := Option.some.inj hb'
    subst hbc
    constructor
    · simp [commitBoard, hlast]
    · simp [commitBoard, hlast]

/-- Fixture for the C10 witness: a board sitting at the final pick, #40. -/
def c10Board : BoardState :=
  { picks := [],
    currentPick := { pickNumber := 40, round := 5, teamIndex := 0, isHuman := false },
    settings := { numTeams := 8, numRounds := 5, humanTeamIndex := 7 },
    draftComplete := false }

/-- Fixture for the C10 witness: the store at the final pick. -/
def c10Store : KVStore :=
  { board := some c10Board, availablePlayers := some [c2Player],
    rosters := fun _ => none, shiftByPick := fun _ => none,
    strategyShifts := none, notes := fun _ => none }

/-- Fixture for the C10 witness: a matching commit of the final pick. -/
def c10Input : RecordPickInput :=
  { boardState := c10Board, roster := { teamIndex := 0, teamName := "Team 1" },
    availablePlayers := [c2Player], pickedPlayer := c2Player,
    reasoning := "final pick", confidence := 1 }

/-- Fixture for the C10 witness: the board the final commit writes back. -/
def c10BoardAfter : BoardState :=
  ((recordPick c10Store c10Input 0).2.board).getD c10Board

/-- Witness for C10: the invariant read off the freshly started draft, and the
final-pick conclusion evaluated on the concrete pick-40 commit. -/
theorem recordPick_cursor_invariant_witness :
    (1 ≤ c2Board.currentPick.pickNumber
      ∧ c2Board.currentPick.pickNumber ≤ TOTAL_PICKS
      ∧ (c2Board.draftComplete = true ↔ c2Board.picks.length = TOTAL_PICKS)
      ∧ (c2Board.draftComplete = false →
          c2Board.picks.length + 1 = c2Board.currentPick.pickNumber))
    ∧ ((recordPick c10Store c10Input 0).1.success = true
      ∧ c10Board.currentPick.pickNumber = TOTAL_PICKS
      ∧ (c10BoardAfter.draftComplete = true
        ∧ c10BoardAfter.currentPick = c10Board.currentPick)) :=
  ⟨recordPick_cursor_invariant.1 c2Store
      (ReachableDraft.init c2Store 7 (by decide)) c2Board rfl,
   by decide, by decide,
   recordPick_cursor_invariant.2 c10Store c10Input 0 c10Board (by decide) rfl
     (by decide) c10BoardAfter (by decide)⟩
